import Mathlib

/-!
Verification of the regression diff engine in `crates/diff-test/src/main.rs`.

The development shallowly embeds the structural differ (`full_diff`), its policy
tables (`IGNORED_KEYS`, `SKIP_GLOB_LIST`, `ALLOWLIST`), the string-normalization
steps (the `WS_DIFF` and `EMPTY_P_DIFF` regex rewrites, the per-key bespoke
normalizations), the dedup cache (`DIFF_MAP`), and the per-document comparison
loop of `main`.

Modelling choices, each noted at the definition it concerns:
- JSON numbers are embedded as integers (no claim concerns numeric leaves).
- External crate functions whose only relevant property is determinism
  (`lol_html` rewriting composed with `html_minifier::minify` and `xml::fmt_html`,
  `prettydiff::diff_words` / `diff_lines` composed with `ansi_to_html::convert`)
  are abstracted as function parameters collected in an `Oracle`, together with
  the unspecified iteration order of `HashSet` in the object branch.
- `Sha256` + base64 is modelled as an injective function of its input byte
  stream; since the source feeds `lhs` then `rhs` with no framing, the model
  uses the plain concatenation.
- The parallel `rayon` iteration of `main` is modelled as a sequential fold in
  corpus order; the shared `DIFF_MAP` becomes threaded state.
-/

inductive Json where
  | null
  | bool (b : Bool)
  | num (n : Int)
  | str (s : String)
  | arr (xs : List Json)
  | obj (fields : List (String × Json))

mutual
def jdecEq : (a b : Json) → Decidable (a = b)
  | .null, .null => isTrue rfl
  | .null, .bool _ => isFalse (fun h => Json.noConfusion h)
  | .null, .num _ => isFalse (fun h => Json.noConfusion h)
  | .null, .str _ => isFalse (fun h => Json.noConfusion h)
  | .null, .arr _ => isFalse (fun h => Json.noConfusion h)
  | .null, .obj _ => isFalse (fun h => Json.noConfusion h)
  | .bool _, .null => isFalse (fun h => Json.noConfusion h)
  | .bool x, .bool y =>
      if h : x = y then isTrue (by rw [h]) else isFalse (fun hh => h (Json.bool.inj hh))
  | .bool _, .num _ => isFalse (fun h => Json.noConfusion h)
  | .bool _, .str _ => isFalse (fun h => Json.noConfusion h)
  | .bool _, .arr _ => isFalse (fun h => Json.noConfusion h)
  | .bool _, .obj _ => isFalse (fun h => Json.noConfusion h)
  | .num _, .null => isFalse (fun h => Json.noConfusion h)
  | .num _, .bool _ => isFalse (fun h => Json.noConfusion h)
  | .num x, .num y =>
      if h : x = y then isTrue (by rw [h]) else isFalse (fun hh => h (Json.num.inj hh))
  | .num _, .str _ => isFalse (fun h => Json.noConfusion h)
  | .num _, .arr _ => isFalse (fun h => Json.noConfusion h)
  | .num _, .obj _ => isFalse (fun h => Json.noConfusion h)
  | .str _, .null => isFalse (fun h => Json.noConfusion h)
  | .str _, .bool _ => isFalse (fun h => Json.noConfusion h)
  | .str _, .num _ => isFalse (fun h => Json.noConfusion h)
  | .str x, .str y =>
      if h : x = y then isTrue (by rw [h]) else isFalse (fun hh => h (Json.str.inj hh))
  | .str _, .arr _ => isFalse (fun h => Json.noConfusion h)
  | .str _, .obj _ => isFalse (fun h => Json.noConfusion h)
  | .arr _, .null => isFalse (fun h => Json.noConfusion h)
  | .arr _, .bool _ => isFalse (fun h => Json.noConfusion h)
  | .arr _, .num _ => isFalse (fun h => Json.noConfusion h)
  | .arr _, .str _ => isFalse (fun h => Json.noConfusion h)
  | .arr xs, .arr ys =>
      match jdecEqList xs ys with
      | isTrue h => isTrue (by rw [h])
      | isFalse h => isFalse (fun hh => h (Json.arr.inj hh))
  | .arr _, .obj _ => isFalse (fun h => Json.noConfusion h)
  | .obj _, .null => isFalse (fun h => Json.noConfusion h)
  | .obj _, .bool _ => isFalse (fun h => Json.noConfusion h)
  | .obj _, .num _ => isFalse (fun h => Json.noConfusion h)
  | .obj _, .str _ => isFalse (fun h => Json.noConfusion h)
  | .obj _, .arr _ => isFalse (fun h => Json.noConfusion h)
  | .obj xs, .obj ys =>
      match jdecEqFields xs ys with
      | isTrue h => isTrue (by rw [h])
      | isFalse h => isFalse (fun hh => h (Json.obj.inj hh))

def jdecEqList : (xs ys : List Json) → Decidable (xs = ys)
  | [], [] => isTrue rfl
  | [], _ :: _ => isFalse (fun h => List.noConfusion h)
  | _ :: _, [] => isFalse (fun h => List.noConfusion h)
  | x :: xs, y :: ys =>
      match jdecEq x y with
      | isTrue h1 =>
          match jdecEqList xs ys with
          | isTrue h2 => isTrue (by rw [h1, h2])
          | isFalse h2 => isFalse (fun hh => h2 (List.cons.inj hh).2)
      | isFalse h1 => isFalse (fun hh => h1 (List.cons.inj hh).1)

def jdecEqFields : (xs ys : List (String × Json)) → Decidable (xs = ys)
  | [], [] => isTrue rfl
  | [], _ :: _ => isFalse (fun h => List.noConfusion h)
  | _ :: _, [] => isFalse (fun h => List.noConfusion h)
  | (k1, v1) :: xs, (k2, v2) :: ys =>
      if hk : k1 = k2 then
        match jdecEq v1 v2 with
        | isTrue h1 =>
            match jdecEqFields xs ys with
            | isTrue h2 => isTrue (by rw [hk, h1, h2])
            | isFalse h2 => isFalse (fun hh => h2 (List.cons.inj hh).2)
        | isFalse h1 =>
            isFalse (fun hh => h1 (congrArg Prod.snd (List.cons.inj hh).1))
      else isFalse (fun hh => hk (congrArg Prod.fst (List.cons.inj hh).1))
end

instance : DecidableEq Json := jdecEq

/-- Embeds the `PathIndex` enum of the source (object key or array index). -/
inductive PathIndex where
  | Object (s : String)
  | Array (i : Nat)
deriving DecidableEq

/-- Models Rust `str::starts_with` (byte prefix; for valid UTF-8 a whole-char
prefix coincides with a byte prefix). -/
def strStartsWith (s pre : String) : Bool := pre.data.isPrefixOf s.data

/-- Models Rust `str::ends_with`. -/
def strEndsWith (s suf : String) : Bool := suf.data.reverse.isPrefixOf s.data.reverse

/-- Embeds `make_key`: segments joined with dots, array indices decimal. -/
def make_key (path : List PathIndex) : String :=
  String.intercalate "." (path.map (fun k => match k with
    | PathIndex.Object s => s
    | PathIndex.Array i => toString i))

/-- Models Rust `char::is_whitespace` restricted to the ASCII range the corpus
uses (the claims only exercise ASCII inputs). -/
def rust_is_ws (c : Char) : Bool := c.isWhitespace

/-- Embeds `is_html`: trimmed value starts with `<` and ends with `>`. -/
def is_html (s : String) : Bool :=
  match s.data.dropWhile rust_is_ws with
  | '<' :: _ =>
    match s.data.reverse.dropWhile rust_is_ws with
    | '>' :: _ => true
    | _ => false
  | _ => false

/-- Embeds the `IGNORED_KEYS` table (the `doc.sidebarHTML` entry is commented
out in the source and therefore absent here as well). -/
def IGNORED_KEYS : List String :=
  ["doc.flaws", "blogMeta.readTime", "doc.modified", "doc.popularity",
   "doc.source.github_url", "doc.source.last_commit_url", "doc.sidebarMacro",
   "doc.hasMathML", "doc.other_translations", "doc.summary"]

/-- Embeds `SKIP_GLOB_LIST`. -/
def SKIP_GLOB_LIST : List String :=
  ["docs/mdn/writing_guidelines/", "docs/mozilla/add-ons/webextensions/",
   "docs/mozilla/firefox/releases/"]

/-- Embeds the escaping `serde_json` applies when serializing a string value,
restricted to the characters this development instantiates. -/
def escape_json_char (c : Char) : List Char :=
  if c = '"' then ['\\', '"']
  else if c = '\\' then ['\\', '\\']
  else if c = '\n' then ['\\', 'n']
  else [c]

def escape_json_string (s : String) : String :=
  ⟨s.data.foldr (fun c acc => escape_json_char c ++ acc) []⟩

mutual
/-- Models `serde_json::Value::to_string` (compact serialization), used by the
`sort_by_key` closure and by the stringify-and-diff fallback branch. -/
def json_to_string : Json → String
  | .null => "null"
  | .bool b => if b then "true" else "false"
  | .num n => toString n
  | .str s => "\"" ++ escape_json_string s ++ "\""
  | .arr xs => "[" ++ json_list_to_string xs ++ "]"
  | .obj fs => "\x7b" ++ json_fields_to_string fs ++ "\x7d"

def json_list_to_string : List Json → String
  | [] => ""
  | [x] => json_to_string x
  | x :: y :: ys => json_to_string x ++ "," ++ json_list_to_string (y :: ys)

def json_fields_to_string : List (String × Json) → String
  | [] => ""
  | [(k, v)] => "\"" ++ escape_json_string k ++ "\":" ++ json_to_string v
  | (k, v) :: f :: fs =>
      "\"" ++ escape_json_string k ++ "\":" ++ json_to_string v ++ "," ++
        json_fields_to_string (f :: fs)
end

/-- Models `serde_json::Value::get(key)`: field lookup on objects, `None` on
every other variant. -/
def jget (v : Json) (k : String) : Option Json :=
  match v with
  | .obj fs => fs.lookup k
  | _ => none

/-- Embeds the sort key of the specification pre-sort:
`v.get("bcdSpecificationURL").unwrap_or(&Value::Null).to_string()`. -/
def spec_sort_key (v : Json) : String :=
  json_to_string ((jget v "bcdSpecificationURL").getD Json.null)

/-- Lexicographic order on strings by codepoint, modeling Rust's `Ord` for
`String` (byte-wise lexicographic on UTF-8, which coincides with
codepoint-lexicographic order). -/
def charListLt : List Char → List Char → Bool
  | [], [] => false
  | [], _ :: _ => true
  | _ :: _, [] => false
  | a :: as, b :: bs =>
      if a.toNat < b.toNat then true
      else if b.toNat < a.toNat then false
      else charListLt as bs

def str_lt (a b : String) : Bool := charListLt a.data b.data

/-- Stable insertion used to model `Vec::sort_by_key` (a stable sort): an
element moves past exactly those with strictly smaller keys. -/
def insert_by_spec_key (x : Json) : List Json → List Json
  | [] => [x]
  | y :: ys =>
      if str_lt (spec_sort_key y) (spec_sort_key x) then y :: insert_by_spec_key x ys
      else x :: y :: ys

/-- Models `lhs_sorted.sort_by_key(|v| ...)`: stable sort of a specification
array by its stringified `bcdSpecificationURL` field. -/
def sort_specs : List Json → List Json
  | [] => []
  | x :: xs => insert_by_spec_key x (sort_specs xs)

/-- Embeds the `WS_DIFF` regex rewrite `(?<x>>)[\n ]+|[\n ]+(?<y></)` →  `$x$y`
as a single left-to-right pass: a run of spaces/newlines directly after `>` or
directly before `</` is deleted. The `pending` accumulator holds (reversed) the
whitespace run whose fate is not yet decided; `afterGt` records that the run
follows a `>` and is therefore deleted outright. -/
def ws_go : List Char → List Char → Bool → List Char
  | [], pending, _ => pending.reverse
  | '<' :: '/' :: cs, _, _ => '<' :: '/' :: ws_go cs [] false
  | c :: cs, pending, afterGt =>
    if c = '>' then pending.reverse ++ '>' :: ws_go cs [] true
    else if c = ' ' || c = '\n' then
      if afterGt then ws_go cs [] true
      else ws_go cs (c :: pending) false
    else pending.reverse ++ c :: ws_go cs [] false

def ws_diff_replace (s : String) : String := ⟨ws_go s.data [] false⟩

/-- Embeds the `EMPTY_P_DIFF` regex rewrite `<p>[\n ]*</p>` → (nothing) as a
left-to-right pass. The second argument is `some buf` while inside a candidate
`<p>` whose buffered whitespace is `buf` (reversed). -/
def ep_go : List Char → Option (List Char) → List Char
  | [], none => []
  | [], some buf => '<' :: 'p' :: '>' :: buf.reverse
  | '<' :: 'p' :: '>' :: rest, none => ep_go rest (some [])
  | c :: cs, none => c :: ep_go cs none
  | '<' :: '/' :: 'p' :: '>' :: rest, some _ => ep_go rest none
  | c :: cs, some buf =>
    if c = ' ' || c = '\n' then ep_go cs (some (c :: buf))
    else '<' :: 'p' :: '>' :: buf.reverse ++ ep_go (c :: cs) none
termination_by l st => l.length * 2 + (if st.isSome then 1 else 0)
decreasing_by
  all_goals simp_arith [List.length]

unseal ep_go

def empty_p_replace (s : String) : String := ⟨ep_go s.data none⟩

/-- The run-fixed external behavior `full_diff` depends on but does not define:
`ord` is the unspecified iteration order of the `HashSet` key union in the
object branch; `canon` is the composition of the `lol_html` rewrite with the
`pre_diff_element_massaging_handlers`, `html_minifier::minify` and
`xml::fmt_html` (a deterministic `String → String` pipeline); `renderWords` and
`renderLines` are `prettydiff::diff_words` / `diff_lines` composed with
`ansi_to_html::convert`. -/
structure Oracle where
  ord : List String → List String
  canon : String → String
  renderWords : String → String → String
  renderLines : String → String → String

/-- The command-line flags `full_diff` consults. -/
structure Args where
  fast : Bool
  sidebars : Bool
deriving DecidableEq

/-- The mutable state `full_diff` touches: the global `DIFF_MAP` dedup table
(hash → marker) and the per-document `BTreeMap` divergence map. -/
structure DiffState where
  dedup : List (String × String)
  diff : List (String × String)
deriving DecidableEq

/-- Models `BTreeMap::insert` on an association list kept sorted by key. -/
def btree_insert (k v : String) : List (String × String) → List (String × String)
  | [] => [(k, v)]
  | (k1, v1) :: rest =>
      if str_lt k k1 then (k, v) :: (k1, v1) :: rest
      else if k = k1 then (k, v) :: rest
      else (k1, v1) :: btree_insert k v rest

/-- Embeds the `url` special case: a root-level `url` key is always ignored. -/
def is_url_path : List PathIndex → Bool
  | [PathIndex.Object s] => s = "url"
  | _ => false

/-- Embeds the ignored-key test inside `full_diff`:
`IGNORED_KEYS.iter().any(|i| key.starts_with(i)) || key == "doc.sidebarHTML" && !args.sidebars`. -/
def ignored_key (args : Args) (key : String) : Bool :=
  IGNORED_KEYS.any (fun i => strStartsWith key i) ||
    (key == "doc.sidebarHTML" && !args.sidebars)

/-- Models `str::replace("\n  ", "\n")` (leftmost, non-overlapping, the
replacement is not rescanned). -/
def unindent_go : List Char → List Char
  | '\n' :: ' ' :: ' ' :: rest => '\n' :: unindent_go rest
  | c :: rest => c :: unindent_go rest
  | [] => []

/-- Embeds the per-key bespoke string normalization of the string branch. -/
def normalize_str (key s : String) : String :=
  if key = "doc.sidebarMacro" then ⟨s.data.map Char.toLower⟩
  else if key = "doc.summary" then ⟨unindent_go s.data⟩
  else if strStartsWith key "doc." && strEndsWith key "value.id" then
    ⟨(s.data.reverse.dropWhile (fun c => c = '_' || c.isDigit)).reverse⟩
  else s

/-- Models the hash the dedup cache keys on: `Sha256` is fed the bytes of `lhs`
then of `rhs` with no separator and no length framing, and the digest is
base64-encoded. The digest construction is injective in its input stream, so
the model keeps the input stream itself: two pairs collide exactly when their
bare concatenations coincide. -/
def diff_hash (l r : String) : String := l ++ r

def dedup_keys : List String → List String
  | [] => []
  | k :: ks => k :: (dedup_keys ks).filter (fun x => x ≠ k)

/-- The union of both objects' key sets (`HashSet::from_iter` + `extend`),
enumerated here in first-occurrence order; `Oracle.ord` then reorders it. -/
def union_keys (l r : List (String × Json)) : List String :=
  dedup_keys (l.map Prod.fst ++ r.map Prod.fst)

/-- Models `map.get(key).unwrap_or(&Value::Null)`. -/
def jlookupD (fs : List (String × Json)) (k : String) : Json :=
  (fs.lookup k).getD Json.null

/-- Embeds the `ALLOWLIST` table: every `(file-path, dotted-json-path)` pair of
the source, in source order (the source collects them into a `HashSet`, so
only membership matters and duplicates are harmless). -/
def ALLOWLIST : List (String × String) := [
  ("docs/glossary/http/index.json", "doc.body.0.value.content"),
  ("docs/learn/html/multimedia_and_embedding/other_embedding_technologies/index.json", "doc.body.4.value.content"),
  ("docs/web/http/headers/content-security-policy/frame-ancestors/index.json", "doc.body.2.value.content"),
  ("docs/learn/learning_and_getting_help/index.json", "doc.body.3.value.content"),
  ("docs/web/media/formats/video_codecs/index.json", "doc.body.6.value.content"),
  ("docs/learn/forms/form_validation/index.json", "doc.body.12.value.content"),
  ("docs/mdn/writing_guidelines/page_structures/live_samples/index.json", "doc.body.9.value.content"),
  ("docs/web/html/element/img/index.json", "doc.body.15.value.content"),
  ("docs/web/css/_colon_-moz-window-inactive/index.json", "doc.body.5.value.content"),
  ("docs/learn/server-side/express_nodejs/deployment/index.json", "doc.body.11.value.content"),
  ("docs/web/http/headers/set-login/index.json", "doc.body.2.value.content"),
  ("docs/web/html/element/a/index.json", "doc.body.2.value.content"),
  ("docs/web/css/background-size/index.json", "doc.body.4.value.content"),
  ("docs/web/css/color_value/color-mix/index.json", "doc.body.2.value.content"),
  ("docs/learn/common_questions/design_and_accessibility/design_for_all_types_of_users/index.json", "doc.body.5.value.content"),
  ("docs/learn/html/multimedia_and_embedding/video_and_audio_content/index.json", "doc.body.2.value.content"),
  ("docs/web/http/headers/content-security-policy/sources/index.json", "doc.body.1.value.content"),
  ("docs/learn/css/howto/css_faq/index.json", "doc.body.11.value.id"),
  ("docs/learn/forms/property_compatibility_table_for_form_controls/index.json", "doc.body.2.value.content"),
  ("docs/learn/html/howto/define_terms_with_html/index.json", "doc.body.0.value.content"),
  ("docs/learn/tools_and_testing/client-side_javascript_frameworks/react_interactivity_filtering_conditional_rendering/index.json", "doc.toc.3.id"),
  ("docs/learn/tools_and_testing/client-side_javascript_frameworks/react_interactivity_filtering_conditional_rendering/index.json", "doc.body.4.value.id"),
  ("docs/mdn/mdn_product_advisory_board/index.json", "doc.body.1.value.content"),
  ("docs/mdn/writing_guidelines/page_structures/live_samples/index.json", "doc.body.11.value.content"),
  ("docs/mdn/writing_guidelines/page_structures/live_samples/index.json", "doc.body.12.value.content"),
  ("docs/mdn/writing_guidelines/page_structures/live_samples/index.json", "doc.body.3.value.content"),
  ("docs/web/performance/speculative_loading/index.json", "doc.body.9.value.id"),
  ("docs/web/manifest/shortcuts/index.json", "doc.toc.1.id"),
  ("docs/web/svg/attribute/preserveaspectratio/index.json", "doc.body.3.value.id"),
  ("docs/web/svg/attribute/preserveaspectratio/index.json", "doc.body.4.value.id"),
  ("docs/web/svg/attribute/preserveaspectratio/index.json", "doc.body.5.value.id"),
  ("docs/web/svg/attribute/preserveaspectratio/index.json", "doc.body.6.value.id"),
  ("docs/web/mathml/element/mfenced/index.json", "doc.body.4.value.content"),
  ("docs/web/javascript/reference/classes/index.json", "doc.body.3.value.content"),
  ("docs/web/javascript/reference/operators/nullish_coalescing/index.json", "doc.body.8.value.id"),
  ("docs/web/css/css_containment/container_size_and_style_queries/index.json", "doc.toc.0.id"),
  ("docs/web/css/css_containment/container_size_and_style_queries/index.json", "doc.toc.2.id"),
  ("docs/web/css/@property/syntax/index.json", "doc.body.4.value.content"),
  ("docs/web/css/css_nesting/nesting_and_specificity/index.json", "doc.body.1.value.id"),
  ("docs/web/css/css_scroll_snap/using_scroll_snap_events/index.json", "doc.body.10.value.content"),
  ("docs/web/css/css_nesting/nesting_and_specificity/index.json", "doc.toc.0.id"),
  ("docs/web/css/nesting_selector/index.json", "doc.body.2.value.id"),
  ("docs/web/css/offset/index.json", "doc.body.5.value.content"),
  ("docs/web/css/position-try-fallbacks/index.json", "doc.body.7.value.content"),
  ("docs/web/css/position-try/index.json", "doc.body.5.value.content"),
  ("docs/web/css/position-area_value/index.json", "doc.toc.5.id"),
  ("docs/learn/forms/styling_web_forms/index.json", "doc.body.10.value.content"),
  ("docs/mdn/kitchensink/index.json", "doc.body.24.value.content"),
  ("docs/web/svg/attribute/begin/index.json", "doc.body.3.value.content"),
  ("docs/web/svg/attribute/begin/index.json", "doc.body.4.value.content"),
  ("docs/web/svg/attribute/begin/index.json", "doc.body.5.value.content"),
  ("docs/web/svg/attribute/begin/index.json", "doc.body.6.value.content"),
  ("docs/web/svg/attribute/begin/index.json", "doc.body.7.value.content"),
  ("docs/web/javascript/reference/global_objects/set/index.json", "doc.body.4.value.content"),
  ("docs/learn/html/introduction_to_html/html_text_fundamentals/index.json", "doc.body.15.value.content"),
  ("docs/learn/tools_and_testing/client-side_javascript_frameworks/vue_computed_properties/index.json", "doc.body.1.value.content"),
  ("docs/learn/tools_and_testing/client-side_javascript_frameworks/react_interactivity_filtering_conditional_rendering/index.json", "doc.body.4.value.i"),
  ("docs/mdn/writing_guidelines/page_structures/links/index.json", "doc.body.3.value.content"),
  ("docs/mdn/writing_guidelines/page_structures/links/index.json", "doc.body.4.value.content"),
  ("docs/mdn/writing_guidelines/page_structures/macros/commonly_used_macros/index.json", "doc.body.14.value.content"),
  ("docs/web/svg/attribute/d/index.json", "doc.body.7.value.content"),
  ("docs/web/svg/attribute/d/index.json", "doc.body.8.value.content"),
  ("docs/mdn/community/discussions/index.json", "doc.body.0.value.content"),
  ("docs/web/http/headers/te/index.json", "doc.body.1.value.content"),
  ("docs/mdn/kitchensink/index.json", "doc.baseline"),
  ("docs/mdn/writing_guidelines/page_structures/compatibility_tables/index.json", "doc.baseline"),
  ("docs/web/svg/attribute/data-_star_/index.json", "doc.body.1.value.specifications.0"),
  ("docs/web/http/headers/permissions-policy/screen-wake-lock/index.json", "doc.baseline"),
  ("docs/web/mathml/global_attributes/mathbackground/index.json", "doc.body.3.value.content"),
  ("docs/web/mathml/global_attributes/mathbackground/index.json", "doc.body.3.value.content"),
  ("docs/web/mathml/global_attributes/mathbackground/index.json", "doc.body.4.type"),
  ("docs/web/mathml/global_attributes/mathbackground/index.json", "doc.body.4.value.content"),
  ("docs/web/mathml/global_attributes/mathbackground/index.json", "doc.body.4.value.id"),
  ("docs/web/mathml/global_attributes/mathbackground/index.json", "doc.body.4.value.query"),
  ("docs/web/mathml/global_attributes/mathbackground/index.json", "doc.body.4.value.title"),
  ("docs/web/mathml/global_attributes/mathbackground/index.json", "doc.body.5.type"),
  ("docs/web/mathml/global_attributes/mathbackground/index.json", "doc.body.5.value.content"),
  ("docs/web/mathml/global_attributes/mathbackground/index.json", "doc.body.5.value.id"),
  ("docs/web/mathml/global_attributes/mathbackground/index.json", "doc.body.5.value.query"),
  ("docs/web/mathml/global_attributes/mathbackground/index.json", "doc.body.5.value.title"),
  ("docs/web/mathml/global_attributes/mathbackground/index.json", "doc.body.6"),
  ("docs/web/mathml/global_attributes/mathcolor/index.json", "doc.body.3.value.content"),
  ("docs/web/mathml/global_attributes/mathcolor/index.json", "doc.body.4.type"),
  ("docs/web/mathml/global_attributes/mathcolor/index.json", "doc.body.4.value.content"),
  ("docs/web/mathml/global_attributes/mathcolor/index.json", "doc.body.4.value.id"),
  ("docs/web/mathml/global_attributes/mathcolor/index.json", "doc.body.4.value.query"),
  ("docs/web/mathml/global_attributes/mathcolor/index.json", "doc.body.4.value.title"),
  ("docs/web/mathml/global_attributes/mathcolor/index.json", "doc.body.5.type"),
  ("docs/web/mathml/global_attributes/mathcolor/index.json", "doc.body.5.value.content"),
  ("docs/web/mathml/global_attributes/mathcolor/index.json", "doc.body.5.value.id"),
  ("docs/web/mathml/global_attributes/mathcolor/index.json", "doc.body.5.value.query"),
  ("docs/web/mathml/global_attributes/mathcolor/index.json", "doc.body.5.value.title"),
  ("docs/web/mathml/global_attributes/mathcolor/index.json", "doc.body.6"),
  ("docs/web/mathml/global_attributes/mathsize/index.json", "doc.body.3.value.content"),
  ("docs/web/mathml/global_attributes/mathsize/index.json", "doc.body.4.type"),
  ("docs/web/mathml/global_attributes/mathsize/index.json", "doc.body.4.value.content"),
  ("docs/web/mathml/global_attributes/mathsize/index.json", "doc.body.4.value.id"),
  ("docs/web/mathml/global_attributes/mathsize/index.json", "doc.body.4.value.query"),
  ("docs/web/mathml/global_attributes/mathsize/index.json", "doc.body.4.value.title"),
  ("docs/web/mathml/global_attributes/mathsize/index.json", "doc.body.5.type"),
  ("docs/web/mathml/global_attributes/mathsize/index.json", "doc.body.5.value.content"),
  ("docs/web/mathml/global_attributes/mathsize/index.json", "doc.body.5.value.id"),
  ("docs/web/mathml/global_attributes/mathsize/index.json", "doc.body.5.value.query"),
  ("docs/web/mathml/global_attributes/mathsize/index.json", "doc.body.5.value.title"),
  ("docs/web/mathml/global_attributes/mathsize/index.json", "doc.body.6"),
  ("docs/web/css/color_value/hwb/index.json", "doc.baseline"),
  ("docs/web/css/@media/dynamic-range/index.json", "doc.baseline"),
  ("docs/web/css/color_value/hwb/index.json", "doc.baseline"),
  ("docs/web/css/cursor/index.json", "doc.body.5.value.content"),
  ("docs/web/css/font-stretch/index.json", "doc.body.8.value.content"),
  ("docs/mdn/kitchensink/index.json", "doc.body.23.value.title"),
  ("docs/mdn/writing_guidelines/howto/write_an_api_reference/index.json", "doc.body.8.value.content"),
  ("docs/mdn/writing_guidelines/page_structures/code_examples/index.json", "doc.body.7.value.content"),
  ("docs/mdn/writing_guidelines/howto/write_an_api_reference/information_contained_in_a_webidl_file/index.json", "doc.body.23.value.content"),
  ("docs/web/accessibility/aria/attributes/aria-autocomplete/index.json", "doc.body.4.value.specifications.1.bcdSpecificationURL"),
  ("docs/web/accessibility/aria/attributes/aria-autocomplete/index.json", "doc.body.4.value.specifications.2"),
  ("docs/web/accessibility/aria/roles/combobox_role/index.json", "doc.body.5.value.specifications.1.bcdSpecificationURL"),
  ("docs/web/accessibility/aria/roles/combobox_role/index.json", "doc.body.5.value.specifications.2"),
  ("docs/web/security/practical_implementation_guides/tls/index.json", "doc.body.10.value.content"),
  ("docs/web/css/reference/index.json", "doc.body.4.value.content"),
  ("docs/web/html/element/input/button/index.json", "doc.body.11.value.content"),
  ("docs/web/html/element/input/color/index.json", "doc.body.12.value.content"),
  ("docs/web/html/element/input/date/index.json", "doc.body.16.value.content"),
  ("docs/web/html/element/input/datetime-local/index.json", "doc.body.14.value.content"),
  ("docs/web/html/element/input/email/index.json", "doc.body.22.value.content"),
  ("docs/web/html/element/input/file/index.json", "doc.body.17.value.content"),
  ("docs/web/html/element/input/hidden/index.json", "doc.body.9.value.content"),
  ("docs/web/html/element/input/image/index.json", "doc.body.23.value.content"),
  ("docs/web/html/element/input/month/index.json", "doc.body.20.value.content"),
  ("docs/web/html/element/input/number/index.json", "doc.body.22.value.content"),
  ("docs/web/html/element/input/password/index.json", "doc.body.20.value.content"),
  ("docs/web/html/element/input/radio/index.json", "doc.body.11.value.content"),
  ("docs/web/html/element/input/range/index.json", "doc.body.18.value.content"),
  ("docs/web/html/element/input/search/index.json", "doc.body.27.value.content"),
  ("docs/web/html/element/input/tel/index.json", "doc.body.21.value.content"),
  ("docs/web/html/element/input/text/index.json", "doc.body.22.value.content"),
  ("docs/web/html/element/input/time/index.json", "doc.body.22.value.content"),
  ("docs/web/html/element/input/url/index.json", "doc.body.22.value.content"),
  ("docs/web/html/element/input/week/index.json", "doc.body.17.value.content"),
  ("docs/web/html/element/link/index.json", "doc.body.2.value.content"),
  ("docs/web/html/element/script/index.json", "doc.body.1.value.content"),
  ("docs/web/html/element/input/checkbox/index.json", "doc.body.14.value.content"),
  ("docs/web/html/element/input/reset/index.json", "doc.body.11.value.content"),
  ("docs/web/html/element/input/submit/index.json", "doc.body.16.value.content"),
  ("docs/web/css/-webkit-mask-position-x/index.json", "doc.body.9.value.content"),
  ("docs/web/css/-webkit-mask-position-y/index.json", "doc.body.9.value.content"),
  ("docs/web/css/-webkit-mask-repeat-x/index.json", "doc.body.10.value.content"),
  ("docs/web/css/-webkit-mask-repeat-y/index.json", "doc.body.10.value.content"),
  ("docs/web/media/formats/video_concepts/index.json", "doc.body.3.value.content"),
  ("docs/web/svg/tutorial/introduction/index.json", "doc.body.0.value.content"),
  ("docs/web/css/css_flexible_box_layout/basic_concepts_of_flexbox/index.json", "doc.body.2.value.content"),
  ("docs/web/css/css_flexible_box_layout/basic_concepts_of_flexbox/index.json", "doc.body.3.value.content"),
  ("docs/web/manifest/index.json", "doc.body.1.value.content"),
  ("docs/web/manifest/orientation/index.json", "doc.body.6.value.content"),
  ("docs/web/css/-moz-orient/index.json", "doc.body.3.value.content"),
  ("docs/web/css/css_namespaces/index.json", "doc.body.0.value.content"),
  ("docs/web/css/shape-outside/index.json", "doc.body.4.value.content"),
  ("docs/web/css/stroke-dasharray/index.json", "doc.body.3.value.content"),
  ("docs/web/css/stroke-dashoffset/index.json", "doc.body.3.value.content"),
  ("docs/web/css/stroke-width/index.json", "doc.body.3.value.content"),
  ("docs/web/css/text-anchor/index.json", "doc.body.3.value.content"),
  ("docs/web/css/text-transform/index.json", "doc.body.15.value.content"),
  ("docs/web/css/x/index.json", "doc.body.3.value.content"),
  ("docs/web/css/y/index.json", "doc.body.3.value.content"),
  ("docs/web/css/stop-opacity/index.json", "doc.body.4.value.content"),
  ("docs/web/svg/attribute/end/index.json", "doc.body.1.value.content"),
  ("docs/web/html/element/track/index.json", "doc.body.5.value.content"),
  ("docs/web/html/global_attributes/itemscope/index.json", "doc.body.3.value.content"),
  ("docs/web/svg/attribute/index.json", "doc.body.30.value.content"),
  ("docs/web/svg/attribute/index.json", "doc.body.31.value.content"),
  ("docs/web/svg/element/animatemotion/index.json", "doc.body.4.value.content"),
  ("docs/web/svg/element/font-face-format/index.json", "doc.body.2.value.content"),
  ("docs/web/svg/element/index.json", "doc.body.18.value.content"),
  ("docs/web/svg/element/index.json", "doc.body.19.value.content"),
  ("docs/web/svg/element/index.json", "doc.body.20.value.content"),
  ("docs/web/svg/element/index.json", "doc.body.21.value.content"),
  ("docs/web/svg/element/index.json", "doc.body.22.value.content"),
  ("docs/web/svg/element/index.json", "doc.body.23.value.content"),
  ("docs/web/svg/element/index.json", "doc.body.24.value.content"),
  ("docs/web/svg/element/index.json", "doc.body.25.value.content"),
  ("docs/web/svg/element/index.json", "doc.body.27.value.content"),
  ("docs/web/svg/element/index.json", "doc.body.28.value.content"),
  ("docs/web/svg/element/index.json", "doc.body.29.value.content"),
  ("docs/web/svg/element/index.json", "doc.body.30.value.content"),
  ("docs/web/svg/element/index.json", "doc.body.31.value.content"),
  ("docs/web/svg/element/index.json", "doc.body.32.value.content"),
  ("docs/web/svg/element/index.json", "doc.body.33.value.content"),
  ("docs/web/svg/element/index.json", "doc.body.34.value.content"),
  ("docs/web/svg/element/index.json", "doc.body.35.value.content"),
  ("docs/web/svg/element/index.json", "doc.body.38.value.content"),
  ("docs/web/svg/element/index.json", "doc.body.39.value.content"),
  ("docs/web/css/@font-face/font-stretch/index.json", "doc.body.7.value.content"),
  ("docs/web/css/@starting-style/index.json", "doc.body.4.value.content"),
  ("docs/web/css/css_multicol_layout/index.json", "doc.body.0.value.content"),
  ("docs/web/css/font-variation-settings/index.json", "doc.body.5.value.content"),
  ("docs/web/css/-moz-image-region/index.json", "doc.body.3.value.content"),
  ("docs/web/css/@import/index.json", "doc.body.3.value.content"),
  ("docs/web/css/@supports/index.json", "doc.body.8.value.content"),
  ("docs/web/css/attr/index.json", "doc.body.4.value.content"),
  ("docs/web/css/calc-size/index.json", "doc.body.8.value.content"),
  ("docs/web/css/calc-sum/index.json", "doc.body.2.value.content"),
  ("docs/web/css/content/index.json", "doc.body.5.value.content"),
  ("docs/web/css/stop-color/index.json", "doc.body.3.value.content"),
  ("docs/web/css/stop-color/index.json", "doc.body.4.value.content"),
  ("docs/web/css/text-decoration-thickness/index.json", "doc.body.10.type"),
  ("docs/web/css/text-decoration-thickness/index.json", "doc.body.10.value.content"),
  ("docs/web/css/text-decoration-thickness/index.json", "doc.body.10.value.id"),
  ("docs/web/css/text-decoration-thickness/index.json", "doc.body.10.value.query"),
  ("docs/web/css/text-decoration-thickness/index.json", "doc.body.10.value.title"),
  ("docs/web/css/text-decoration-thickness/index.json", "doc.body.11"),
  ("docs/web/css/text-decoration-thickness/index.json", "doc.body.8.value.content"),
  ("docs/web/css/text-decoration-thickness/index.json", "doc.body.9.type"),
  ("docs/web/css/text-decoration-thickness/index.json", "doc.body.9.value.content"),
  ("docs/web/css/text-decoration-thickness/index.json", "doc.body.9.value.id"),
  ("docs/web/css/text-decoration-thickness/index.json", "doc.body.9.value.query"),
  ("docs/web/css/text-decoration-thickness/index.json", "doc.body.9.value.title"),
  ("docs/web/css/text-overflow/index.json", "doc.body.10.type"),
  ("docs/web/css/text-overflow/index.json", "doc.body.10.value.content"),
  ("docs/web/css/text-overflow/index.json", "doc.body.10.value.id"),
  ("docs/web/css/text-overflow/index.json", "doc.body.10.value.query"),
  ("docs/web/css/text-overflow/index.json", "doc.body.10.value.title"),
  ("docs/web/css/text-overflow/index.json", "doc.body.11.type"),
  ("docs/web/css/text-overflow/index.json", "doc.body.11.value.content"),
  ("docs/web/css/text-overflow/index.json", "doc.body.11.value.id"),
  ("docs/web/css/text-overflow/index.json", "doc.body.11.value.query"),
  ("docs/web/css/text-overflow/index.json", "doc.body.11.value.title"),
  ("docs/web/css/text-overflow/index.json", "doc.body.12"),
  ("docs/web/css/text-overflow/index.json", "doc.body.9.value.content"),
  ("docs/web/css/outline-color/index.json", "doc.body.7.value.content"),
  ("docs/web/css/outline/index.json", "doc.body.8.value.content")
]

/-- The normalized pair the string branch of `full_diff` compares: per-key
bespoke normalization followed, when both sides look like HTML, by the
whitespace rewrite, the empty-paragraph rewrite and the canonicalization tail
`canon` (the `lol_html` + minify + `fmt_html` pipeline). -/
def leaf_strings (canon : String → String) (key l0 r0 : String) : String × String :=
  let l1 := normalize_str key l0
  let r1 := normalize_str key r0
  if is_html l1 && is_html r1 then
    (canon (empty_p_replace (ws_diff_replace l1)), canon (empty_p_replace (ws_diff_replace r1)))
  else (l1, r1)

mutual
/-- A compact structural size on JSON trees (strings and atoms count 1), used
as the termination measure of `full_diff`; keeping the measure small keeps the
accessibility chains the kernel unfolds during evaluation shallow. -/
def jsize : Json → Nat
  | .null => 1
  | .bool _ => 1
  | .num _ => 1
  | .str _ => 1
  | .arr xs => 1 + jsizeList xs
  | .obj fs => 1 + jsizeFields fs

def jsizeList : List Json → Nat
  | [] => 1
  | x :: xs => 1 + jsize x + jsizeList xs

def jsizeFields : List (String × Json) → Nat
  | [] => 1
  | (_, v) :: fs => 1 + jsize v + jsizeFields fs
end

theorem jsize_pos (v : Json) : 1 ≤ jsize v := by
  cases v <;> simp_arith [jsize]

theorem jsizeList_pos (l : List Json) : 1 ≤ jsizeList l := by
  cases l <;> simp_arith [jsizeList]

theorem jsize_lt_of_mem (l : List Json) : ∀ x, x ∈ l → jsize x < jsizeList l := by
  induction l with
  | nil => intro x hx; simp at hx
  | cons y ys ih =>
      intro x hx
      rcases List.mem_cons.mp hx with h | h
      · subst h
        have := jsizeList_pos ys
        simp only [jsizeList]
        omega
      · have h1 := ih x h
        have h2 := jsize_pos y
        simp only [jsizeList]
        omega

theorem mem_insert_by_spec_key (x : Json) (l : List Json) :
    ∀ y, y ∈ insert_by_spec_key x l → y = x ∨ y ∈ l := by
  induction l with
  | nil =>
      intro y hy
      simp only [insert_by_spec_key, List.mem_singleton] at hy
      exact Or.inl hy
  | cons z zs ih =>
      intro y hy
      simp only [insert_by_spec_key] at hy
      split at hy
      · rcases List.mem_cons.mp hy with h | h
        · exact Or.inr (by simp [h])
        · rcases ih y h with h2 | h2
          · exact Or.inl h2
          · exact Or.inr (by simp [h2])
      · rcases List.mem_cons.mp hy with h | h
        · exact Or.inl h
        · exact Or.inr h

theorem mem_sort_specs (l : List Json) : ∀ y, y ∈ sort_specs l → y ∈ l := by
  induction l with
  | nil => intro y hy; simp [sort_specs] at hy
  | cons x xs ih =>
      intro y hy
      simp only [sort_specs] at hy
      rcases mem_insert_by_spec_key x (sort_specs xs) y hy with h | h
      · simp [h]
      · exact List.mem_cons.mpr (Or.inr (ih y h))

theorem jsize_getD_le : ∀ (l2 l : List Json), (∀ x, x ∈ l2 → x ∈ l) → ∀ i : Nat,
    jsize (l2.getD i Json.null) ≤ jsizeList l
  | [], l, _, i => by
      simp only [List.getD, List.get?_nil, Option.getD_none]
      exact le_trans (by simp [jsize]) (jsizeList_pos l)
  | x :: xs, l, sub, 0 => by
      simp only [List.getD, List.get?_cons_zero, Option.getD_some]
      exact le_of_lt (jsize_lt_of_mem l x (sub x (by simp)))
  | x :: xs, l, sub, i + 1 => by
      simp only [List.getD, List.get?_cons_succ]
      exact jsize_getD_le xs l (fun y hy => sub y (by simp [hy])) i

theorem jsize_jlookupD (fs : List (String × Json)) (k : String) :
    jsize (jlookupD fs k) ≤ jsizeFields fs := by
  induction fs with
  | nil => simp [jlookupD, List.lookup, jsize, jsizeFields]
  | cons a fs ih =>
      obtain ⟨ka, va⟩ := a
      simp only [jlookupD, List.lookup] at *
      split
      · simp only [Option.getD_some]
        simp_arith [jsizeFields]
      · refine le_trans ih ?h
        have := jsize_pos va
        simp only [jsizeFields]
        omega

/-- Embeds `full_diff`, the recursive structural differ. `o` carries the
run-fixed external behavior (see `Oracle`), `st` the mutable state (global
`DIFF_MAP` plus the per-document divergence map). Branches follow the source:
root-level `url` skip, `SKIP_GLOB_LIST`, `ALLOWLIST`, the `lhs != rhs` gate,
`IGNORED_KEYS`/`doc.sidebarHTML`, then the array / object / string / stringify
dispatch. In the array branch at a key ending in `specifications` the source
compares `lhs_sorted` against a second clone of `lhs_sorted` (`rhs_sorted` is
computed but unused), which the model reproduces verbatim. -/
def full_diff (o : Oracle) (args : Args) (lhs rhs : Json) (file : String)
    (path : List PathIndex) (st : DiffState) : DiffState :=
  if is_url_path path then st else
  if SKIP_GLOB_LIST.any (fun i => strStartsWith file i) then st else
  if (file, make_key path) ∈ ALLOWLIST then st else
  if lhs = rhs then st else
  if ignored_key args (make_key path) then st else
  match lhs, rhs with
  | .arr l, .arr r =>
      if strEndsWith (make_key path) "specifications" then
        (List.range (max l.length r.length)).foldl
          (fun st1 i => full_diff o args ((sort_specs l).getD i .null)
              ((sort_specs l).getD i .null) file (path ++ [.Array i]) st1) st
      else
        (List.range (max l.length r.length)).foldl
          (fun st1 i => full_diff o args (l.getD i .null) (r.getD i .null)
              file (path ++ [.Array i]) st1) st
  | .obj l, .obj r =>
      (o.ord (union_keys l r)).foldl
        (fun st1 k => full_diff o args (jlookupD l k) (jlookupD r k)
            file (path ++ [.Object k]) st1) st
  | .str l0, .str r0 =>
      if (leaf_strings o.canon (make_key path) l0 r0).1 =
          (leaf_strings o.canon (make_key path) l0 r0).2 then st
      else
        let l2 := (leaf_strings o.canon (make_key path) l0 r0).1
        let r2 := (leaf_strings o.canon (make_key path) l0 r0).2
        match st.dedup.lookup (diff_hash l2 r2) with
        | some marker => ⟨st.dedup, btree_insert (make_key path) ("See " ++ marker) st.diff⟩
        | none =>
            ⟨(diff_hash l2 r2, "somewhere else") :: st.dedup,
              btree_insert (make_key path)
                (if args.fast then o.renderLines l2 r2 else o.renderWords l2 r2) st.diff⟩
  | l, r =>
      if json_to_string l = json_to_string r then st
      else ⟨st.dedup,
        btree_insert (make_key path)
          (o.renderWords (json_to_string l) (json_to_string r)) st.diff⟩
termination_by max (jsize lhs) (jsize rhs)
decreasing_by
  · have h1 := jsize_getD_le (sort_specs l) l (fun y hy => mem_sort_specs l y hy) i
    simp only [jsize]
    omega
  · have h1 := jsize_getD_le l l (fun y hy => hy) i
    have h2 := jsize_getD_le r r (fun y hy => hy) i
    simp only [jsize]
    omega
  · have h1 := jsize_jlookupD l k
    have h2 := jsize_jlookupD r k
    simp only [jsize]
    omega

unseal full_diff

example : (full_diff ⟨id, id, fun a b => "W " ++ a ++ " " ++ b, fun a b => "L " ++ a ++ " " ++ b⟩
    ⟨false, false⟩ (Json.str "x") (Json.str "y") "f" [PathIndex.Object "a"] ⟨[], []⟩).diff =
    [("a", "W x y")] := by decide

/-- Result of one comparison run: the `same` counter, the per-document report
items (document path paired with its divergence map, in corpus-A order), and
the final `DIFF_MAP` contents. -/
structure RunOut where
  same : Nat
  items : List (String × List (String × String))
  dedup : List (String × String)
deriving DecidableEq

/-- Embeds one step of the per-key comparison loop of `main` (the structural
path shared by `--csv` and `--html --value`): if corpus B holds an equal value
the `same` counter is bumped; otherwise `full_diff` runs against B's value (or
`Value::Null` when the key is absent in B) with a fresh per-document divergence
map, and a non-empty map becomes a report item while an empty one also bumps
`same`. The global `DIFF_MAP` (`acc.dedup`) is threaded through. -/
def run_step (o : Oracle) (args : Args) (b : List (String × Json))
    (acc : RunOut) (kv : String × Json) : RunOut :=
  match b.lookup kv.1 with
  | some w =>
      if w = kv.2 then { acc with same := acc.same + 1 }
      else
        let st := full_diff o args kv.2 w kv.1 [] ⟨acc.dedup, []⟩
        if st.diff = [] then { acc with same := acc.same + 1, dedup := st.dedup }
        else { acc with items := acc.items ++ [(kv.1, st.diff)], dedup := st.dedup }
  | none =>
      let st := full_diff o args kv.2 Json.null kv.1 [] ⟨acc.dedup, []⟩
      if st.diff = [] then { acc with same := acc.same + 1, dedup := st.dedup }
      else { acc with items := acc.items ++ [(kv.1, st.diff)], dedup := st.dedup }

/-- Embeds the comparison loop of `main`: `a.par_iter().filter_map(...)` —
note it walks the keys of corpus A only. The parallel iteration is modelled
sequentially in corpus order (corpora are `BTreeMap`s, so `a` is key-sorted);
this fixes one admissible schedule of the nondeterministic run. -/
def run_diff (o : Oracle) (args : Args) (a b : List (String × Json)) : RunOut :=
  a.foldl (run_step o args b) ⟨0, [], []⟩

/-- Embeds `hits`, the total key count `max(a.len(), b.len())` printed by
`main`. -/
def run_hits (a b : List (String × Json)) : Nat := max a.length b.length

/-- A concrete `Oracle` used by witnesses and counterexamples: identity
iteration order and canonicalization tail, with trivially distinguishable
diff renderers. -/
def oracle0 : Oracle :=
  ⟨id, id, fun a b => "W " ++ a ++ " " ++ b, fun a b => "L " ++ a ++ " " ++ b⟩

def args0 : Args := ⟨false, false⟩

example : ws_diff_replace "<p>\n  hello\n</p>" = "<p>hello</p>" := by decide
example : empty_p_replace "<p> \n </p>x" = "x" := by decide
example : ws_diff_replace "a > b</i>" = "a >b</i>" := by decide
example : is_html "" = false := by decide
example : is_html "<p></p>" = true := by decide
example : normalize_str "doc.a.value.id" "heading_2" = "heading" := by decide
example :
    (run_diff oracle0 args0 [("d", Json.str "x")] [("d", Json.str "y")]).items =
      [("d", [("", "W x y")])] := by decide
example :
    run_diff oracle0 args0 [("d", Json.str "x")] [("d", Json.str "x")] =
      ⟨1, [], []⟩ := by decide

/-! Shared helper lemmas about `full_diff` and the run model. -/

theorem full_diff_self (o : Oracle) (args : Args) (v : Json) (file : String)
    (path : List PathIndex) (st : DiffState) :
    full_diff o args v v file path st = st := by
  rw [full_diff.eq_def]
  split_ifs <;> first | rfl | exact absurd rfl (by assumption)

theorem foldl_self_eq {α : Type} (f : DiffState → α → DiffState) (l : List α)
    (st : DiffState) (h : ∀ st1 x, f st1 x = st1) : l.foldl f st = st := by
  induction l generalizing st with
  | nil => rfl
  | cons x xs ih => rw [List.foldl_cons, h, ih]

/-- C2: at a dotted key ending in `specifications`, `full_diff` on two arrays
returns its state unchanged — no divergence is recorded at or below that path,
whatever the arrays contain — because the element-wise recursion compares the
sorted copy of `lhs` against that same sorted copy on both sides. -/
theorem specifications_arrays_never_diverge (o : Oracle) (args : Args)
    (l r : List Json) (file : String) (path : List PathIndex) (st : DiffState)
    (hspec : strEndsWith (make_key path) "specifications" = true) :
    full_diff o args (Json.arr l) (Json.arr r) file path st = st := by
  rw [full_diff.eq_def]
  split
  · rfl
  split
  · rfl
  split
  · rfl
  split
  · rfl
  split
  · rfl
  split
  case h_1 =>
    exact foldl_self_eq _ _ st (fun st1 i => full_diff_self o args _ file _ st1)
  case h_2 =>
    rename_i heq1 heq2
    exact Json.noConfusion heq1
  case h_3 =>
    rename_i heq1 heq2
    exact Json.noConfusion heq1
  case h_4 =>
    rename_i x1 x2 x3
    exact (x1 l r rfl rfl).elim

theorem specifications_arrays_never_diverge_witness :
    strEndsWith (make_key [PathIndex.Object "doc", PathIndex.Object "specifications"])
        "specifications" = true ∧
    full_diff oracle0 args0 (Json.arr [Json.str "a"]) (Json.arr [Json.str "b"]) "f"
      [PathIndex.Object "doc", PathIndex.Object "specifications"] ⟨[], []⟩ = ⟨[], []⟩ :=
  ⟨by decide,
    specifications_arrays_never_diverge oracle0 args0 [Json.str "a"] [Json.str "b"] "f"
      [PathIndex.Object "doc", PathIndex.Object "specifications"] ⟨[], []⟩ (by decide)⟩

/-- C1 (failing-input evaluation): at a `specifications` key, two one-element
arrays that differ — and whose independently sorted forms differ element-wise,
so the claim requires a divergence — produce an unchanged state: the source
sorts both sides but then compares `lhs_sorted` against a clone of itself,
leaving `rhs_sorted` unused. -/
theorem specifications_sorted_mismatch_not_reported :
    Json.arr [Json.obj [("bcdSpecificationURL", Json.str "a")]] ≠
      Json.arr [Json.obj [("bcdSpecificationURL", Json.str "b")]] ∧
    sort_specs [Json.obj [("bcdSpecificationURL", Json.str "a")]] ≠
      sort_specs [Json.obj [("bcdSpecificationURL", Json.str "b")]] ∧
    full_diff oracle0 args0
      (Json.arr [Json.obj [("bcdSpecificationURL", Json.str "a")]])
      (Json.arr [Json.obj [("bcdSpecificationURL", Json.str "b")]])
      "f" [PathIndex.Object "doc", PathIndex.Object "specifications"] ⟨[], []⟩ =
      ⟨[], []⟩ := by
  set_option maxRecDepth 2000 in decide

theorem run_self_aux (o : Oracle) (args : Args) (a : List (String × Json)) :
    ∀ (l : List (String × Json)) (acc : RunOut),
      (∀ kv, kv ∈ l → a.lookup kv.1 = some kv.2) →
      l.foldl (run_step o args a) acc = ⟨acc.same + l.length, acc.items, acc.dedup⟩ := by
  intro l
  induction l with
  | nil =>
      intro acc h
      simp [List.foldl_nil]
  | cons kv l ih =>
      intro acc h
      rw [List.foldl_cons]
      have hk : a.lookup kv.1 = some kv.2 := h kv (by simp)
      have hstep : run_step o args a acc kv = ⟨acc.same + 1, acc.items, acc.dedup⟩ := by
        unfold run_step
        rw [hk]
        simp
      rw [hstep, ih _ (fun kv2 hkv2 => h kv2 (by simp [hkv2]))]
      congr 1
      simp_arith

/-- C5: comparing a corpus against itself yields zero divergences — `full_diff`
of a value against itself returns its state unchanged for every JSON value —
and the run over a corpus paired with itself reports no items, with the `same`
count equal to the total key count. -/
theorem self_comparison (o : Oracle) (args : Args) (v : Json) (file : String)
    (path : List PathIndex) (st : DiffState) (a : List (String × Json))
    (ha : ∀ kv, kv ∈ a → a.lookup kv.1 = some kv.2) :
    full_diff o args v v file path st = st ∧
    run_diff o args a a = ⟨a.length, [], []⟩ ∧
    run_hits a a = a.length := by
  refine ⟨full_diff_self o args v file path st, ?_, by simp [run_hits]⟩
  unfold run_diff
  rw [run_self_aux o args a a ⟨0, [], []⟩ ha]
  congr 1
  simp

theorem self_comparison_witness :
    (∀ kv, kv ∈ [("k", Json.null), ("m", Json.bool true)] →
      List.lookup kv.1 [("k", Json.null), ("m", Json.bool true)] = some kv.2) ∧
    (full_diff oracle0 args0 (Json.str "v") (Json.str "v") "f" [] ⟨[], []⟩ = ⟨[], []⟩ ∧
      run_diff oracle0 args0 [("k", Json.null), ("m", Json.bool true)]
        [("k", Json.null), ("m", Json.bool true)] = ⟨2, [], []⟩ ∧
      run_hits [("k", Json.null), ("m", Json.bool true)]
        [("k", Json.null), ("m", Json.bool true)] = 2) :=
  ⟨by decide,
    self_comparison oracle0 args0 (Json.str "v") "f" [] ⟨[], []⟩
      [("k", Json.null), ("m", Json.bool true)] (by decide)⟩

/-- C3 counterexample: a key present only in corpus B is never compared: the
run over an empty corpus A against a corpus B holding key "k" produces no
comparison and no report item at all, even though the sides differ at "k"; the
key only inflates the printed total via `max`. -/
theorem corpus_b_only_key_never_compared :
    List.lookup "k" [("k", Json.str "x")] = some (Json.str "x") ∧
    run_diff oracle0 args0 [] [("k", Json.str "x")] = ⟨0, [], []⟩ ∧
    run_hits [] [("k", Json.str "x")] = 1 := by decide

theorem run_step_shape (o : Oracle) (args : Args) (b : List (String × Json))
    (acc : RunOut) (kv : String × Json) :
    ((run_step o args b acc kv).same = acc.same + 1 ∧
      (run_step o args b acc kv).items = acc.items) ∨
    ((run_step o args b acc kv).same = acc.same ∧
      ∃ d, (run_step o args b acc kv).items = acc.items ++ [(kv.1, d)]) := by
  unfold run_step
  split
  · split
    · exact Or.inl ⟨rfl, rfl⟩
    · dsimp only
      split
      · exact Or.inl ⟨rfl, rfl⟩
      · exact Or.inr ⟨rfl, _, rfl⟩
  · dsimp only
    split
    · exact Or.inl ⟨rfl, rfl⟩
    · exact Or.inr ⟨rfl, _, rfl⟩

theorem run_fold_aux (o : Oracle) (args : Args) (b : List (String × Json)) :
    ∀ (l : List (String × Json)) (acc : RunOut),
      ((l.foldl (run_step o args b) acc).same + (l.foldl (run_step o args b) acc).items.length
        = acc.same + acc.items.length + l.length) ∧
      (∀ it, it ∈ (l.foldl (run_step o args b) acc).items →
        it ∈ acc.items ∨ it.1 ∈ l.map Prod.fst) := by
  intro l
  induction l with
  | nil => intro acc; exact ⟨by simp, fun it h => Or.inl h⟩
  | cons kv l ih =>
      intro acc
      rw [List.foldl_cons]
      obtain ⟨ih1, ih2⟩ := ih (run_step o args b acc kv)
      rcases run_step_shape o args b acc kv with ⟨h1, h2⟩ | ⟨h1, d, h2⟩
      · constructor
        · rw [ih1, h1, h2]
          simp_arith
        · intro it hit
          rcases ih2 it hit with h | h
          · rw [h2] at h
            exact Or.inl h
          · exact Or.inr (by simp [h])
      · constructor
        · rw [ih1, h1, h2]
          simp_arith [List.length_append]
        · intro it hit
          rcases ih2 it hit with h | h
          · rw [h2] at h
            rcases List.mem_append.mp h with h3 | h3
            · exact Or.inl h3
            · have hd : it = (kv.1, d) := by simpa using h3
              exact Or.inr (by simp [hd])
          · exact Or.inr (by simp [h])

/-- C3 amended: the comparison run covers exactly corpus A's key set: every
key of A is compared — contributing either one `same` increment or one report
item — and every report item's document path is a key of A. Keys present only
in corpus B are never compared (see the counterexample), contrary to the
symmetric-key-set description. -/
theorem run_covers_corpus_a_keys (o : Oracle) (args : Args)
    (a b : List (String × Json)) :
    (run_diff o args a b).same + (run_diff o args a b).items.length = a.length ∧
    (∀ it, it ∈ (run_diff o args a b).items → it.1 ∈ a.map Prod.fst) := by
  obtain ⟨h1, h2⟩ := run_fold_aux o args b a ⟨0, [], []⟩
  refine ⟨by simpa using h1, fun it hit => ?_⟩
  rcases h2 it hit with h | h
  · simp at h
  · exact h

/-- C10: the dedup hash is taken over the bare concatenation of `lhs` then
`rhs` with no separator and no length framing, so the distinct pairs
("a", "bc") and ("ab", "c") hash identically; the pair processed second is
emitted as a back-reference marker instead of a rendered diff even though its
delta differs from the first-rendered one. -/
theorem dedup_hash_concatenation_collision :
    ("a", "bc") ≠ ("ab", "c") ∧
    diff_hash "a" "bc" = diff_hash "ab" "c" ∧
    (run_diff oracle0 args0 [("d1", Json.str "a"), ("d2", Json.str "ab")]
        [("d1", Json.str "bc"), ("d2", Json.str "c")]).items =
      [("d1", [("", "W a bc")]), ("d2", [("", "See somewhere else")])] := by decide

theorem full_diff_str_of_leaf_eq (o : Oracle) (args : Args) (l0 r0 : String)
    (file : String) (path : List PathIndex) (st : DiffState)
    (h : (leaf_strings o.canon (make_key path) l0 r0).1 =
      (leaf_strings o.canon (make_key path) l0 r0).2) :
    full_diff o args (Json.str l0) (Json.str r0) file path st = st := by
  rw [full_diff.eq_def]
  split
  · rfl
  split
  · rfl
  split
  · rfl
  split
  · rfl
  split
  · rfl
  split
  case h_1 =>
    rename_i heq1 heq2
    exact Json.noConfusion heq1
  case h_2 =>
    rename_i heq1 heq2
    exact Json.noConfusion heq1
  case h_3 =>
    rename_i l1 r1 heq1 heq2
    cases Json.str.inj heq1
    cases Json.str.inj heq2
    rw [if_pos h]
  case h_4 =>
    rename_i x1 x2 x3
    exact (x3 l0 r0 rfl rfl).elim

theorem leaf_strings_c4 (canon : String → String) (key : String) :
    (leaf_strings canon key "<p>\n  hello\n</p>" "<p>hello</p>").1 =
    (leaf_strings canon key "<p>\n  hello\n</p>" "<p>hello</p>").2 := by
  by_cases h1 : key = "doc.sidebarMacro"
  · subst h1
    rfl
  by_cases h2 : key = "doc.summary"
  · subst h2
    rfl
  by_cases h3 : (strStartsWith key "doc." && strEndsWith key "value.id") = true
  · have hA : normalize_str key "<p>\n  hello\n</p>" = "<p>\n  hello\n</p>" := by
      unfold normalize_str
      rw [if_neg h1, if_neg h2, if_pos h3]
      decide
    have hB : normalize_str key "<p>hello</p>" = "<p>hello</p>" := by
      unfold normalize_str
      rw [if_neg h1, if_neg h2, if_pos h3]
      decide
    unfold leaf_strings
    rw [hA, hB]
    rfl
  · have hA : normalize_str key "<p>\n  hello\n</p>" = "<p>\n  hello\n</p>" := by
      unfold normalize_str
      rw [if_neg h1, if_neg h2, if_neg h3]
    have hB : normalize_str key "<p>hello</p>" = "<p>hello</p>" := by
      unfold normalize_str
      rw [if_neg h1, if_neg h2, if_neg h3]
    unfold leaf_strings
    rw [hA, hB]
    rfl

/-- C4 corrected: at every string leaf, "<p>\n  hello\n</p>" against
"<p>hello</p>" produces no divergence — whitespace collapsing runs before leaf
comparison — for any path, file and state; but "<p></p>" against the empty
string DOES produce a divergence at a leaf not skipped by policy, because the
empty string fails the `is_html` test, so the canonicalization (including
empty-paragraph removal) never runs on that pair. -/
theorem html_whitespace_tolerance_and_empty_p_divergence (o : Oracle)
    (args : Args) (file : String) (path : List PathIndex) (st : DiffState) :
    full_diff o args (Json.str "<p>\n  hello\n</p>") (Json.str "<p>hello</p>")
        file path st = st ∧
    (full_diff o args (Json.str "<p></p>") (Json.str "") "f"
        [PathIndex.Object "x"] ⟨[], []⟩).diff =
      [("x", if args.fast then o.renderLines "<p></p>" "" else o.renderWords "<p></p>" "")] :=
  ⟨full_diff_str_of_leaf_eq o args _ _ file path st (leaf_strings_c4 o.canon (make_key path)),
    rfl⟩

/-- C4 counterexample: "<p></p>" against "" produces a divergence (here at the
leaf `x` of file `f`, neither skipped nor allow-listed), contradicting the
claim that empty-paragraph removal makes the pair compare equal: the empty
string is not recognized as HTML, so no canonicalization runs for the pair. -/
theorem empty_p_vs_empty_string_diverges :
    (full_diff oracle0 args0 (Json.str "<p></p>") (Json.str "") "f"
        [PathIndex.Object "x"] ⟨[], []⟩).diff = [("x", "W <p></p> ")] := by decide

theorem leaf_strings_heading (canon : String → String) (key : String)
    (h : (strStartsWith key "doc." && strEndsWith key "value.id") = true) :
    (leaf_strings canon key "heading_2" "heading_3").1 =
    (leaf_strings canon key "heading_2" "heading_3").2 := by
  have h1 : key ≠ "doc.sidebarMacro" := by
    intro e
    rw [e] at h
    exact absurd h (by decide)
  have h2 : key ≠ "doc.summary" := by
    intro e
    rw [e] at h
    exact absurd h (by decide)
  have hA : normalize_str key "heading_2" = "heading" := by
    unfold normalize_str
    rw [if_neg h1, if_neg h2, if_pos h]
    decide
  have hB : normalize_str key "heading_3" = "heading" := by
    unfold normalize_str
    rw [if_neg h1, if_neg h2, if_pos h]
    decide
  unfold leaf_strings
  rw [hA, hB]
  rfl

/-- C8 amended: at any dotted path that starts with `doc.` AND ends with
`value.id`, comparing "heading_2" against "heading_3" produces no divergence:
trailing underscore and digit characters are stripped from both sides before
comparison. The `doc.` prefix condition is required — see the counterexample. -/
theorem id_suffix_tolerance (o : Oracle) (args : Args) (file : String)
    (path : List PathIndex) (st : DiffState)
    (h : (strStartsWith (make_key path) "doc." &&
      strEndsWith (make_key path) "value.id") = true) :
    full_diff o args (Json.str "heading_2") (Json.str "heading_3") file path st = st :=
  full_diff_str_of_leaf_eq o args _ _ file path st
    (leaf_strings_heading o.canon (make_key path) h)

theorem id_suffix_tolerance_witness :
    (strStartsWith (make_key [PathIndex.Object "doc", PathIndex.Object "a",
        PathIndex.Object "value", PathIndex.Object "id"]) "doc." &&
      strEndsWith (make_key [PathIndex.Object "doc", PathIndex.Object "a",
        PathIndex.Object "value", PathIndex.Object "id"]) "value.id") = true ∧
    full_diff oracle0 args0 (Json.str "heading_2") (Json.str "heading_3") "f"
      [PathIndex.Object "doc", PathIndex.Object "a", PathIndex.Object "value",
        PathIndex.Object "id"] ⟨[], []⟩ = ⟨[], []⟩ :=
  ⟨by decide,
    id_suffix_tolerance oracle0 args0 "f"
      [PathIndex.Object "doc", PathIndex.Object "a", PathIndex.Object "value",
        PathIndex.Object "id"] ⟨[], []⟩ (by decide)⟩

/-- C8 counterexample: at the path `x.value.id` — which ends with `value.id`
but does not start with `doc.` — "heading_2" against "heading_3" IS reported:
the bespoke stripping is keyed on both conditions, not on the suffix alone. -/
theorem id_suffix_not_stripped_outside_doc :
    strEndsWith (make_key [PathIndex.Object "x", PathIndex.Object "value",
      PathIndex.Object "id"]) "value.id" = true ∧
    (full_diff oracle0 args0 (Json.str "heading_2") (Json.str "heading_3") "f"
        [PathIndex.Object "x", PathIndex.Object "value", PathIndex.Object "id"]
        ⟨[], []⟩).diff = [("x.value.id", "W heading_2 heading_3")] := by decide

theorem make_key_nil : make_key [] = "" := rfl

theorem leaf_strings_root (canon : String → String) (l r : String)
    (hh : (is_html l && is_html r) = false) :
    leaf_strings canon "" l r = (l, r) := by
  show (if (is_html l && is_html r) = true then
      (canon (empty_p_replace (ws_diff_replace l)), canon (empty_p_replace (ws_diff_replace r)))
    else (l, r)) = (l, r)
  rw [hh]
  simp

theorem full_diff_root_leaf_miss (o : Oracle) (args : Args) (f l r : String)
    (ded : List (String × String))
    (hglob : (SKIP_GLOB_LIST.any fun i => strStartsWith f i) = false)
    (hallow : (f, "") ∉ ALLOWLIST)
    (hne : l ≠ r) (hh : (is_html l && is_html r) = false)
    (hmiss : ded.lookup (l ++ r) = none) :
    full_diff o args (Json.str l) (Json.str r) f [] ⟨ded, []⟩ =
      ⟨(l ++ r, "somewhere else") :: ded,
        [("", if args.fast then o.renderLines l r else o.renderWords l r)]⟩ := by
  rw [full_diff.eq_def, make_key_nil]
  rw [if_neg (by decide : ¬ is_url_path [] = true)]
  rw [hglob]
  rw [if_neg (by decide : ¬ (false = true))]
  rw [if_neg hallow]
  rw [if_neg (fun e => hne (Json.str.inj e))]
  rw [show ignored_key args "" = false from rfl]
  rw [if_neg (by decide : ¬ (false = true))]
  split
  case h_1 =>
    rename_i heq1 heq2
    exact Json.noConfusion heq1
  case h_2 =>
    rename_i heq1 heq2
    exact Json.noConfusion heq1
  case h_3 =>
    rename_i l1 r1 heq1 heq2
    cases Json.str.inj heq1
    cases Json.str.inj heq2
    rw [leaf_strings_root o.canon l r hh]
    dsimp only
    rw [if_neg hne]
    dsimp only [diff_hash]
    rw [hmiss]
    rfl
  case h_4 =>
    rename_i x1 x2 x3
    exact (x3 l r rfl rfl).elim

theorem full_diff_root_leaf_hit (o : Oracle) (args : Args) (f l r : String)
    (ded : List (String × String)) (marker : String)
    (hglob : (SKIP_GLOB_LIST.any fun i => strStartsWith f i) = false)
    (hallow : (f, "") ∉ ALLOWLIST)
    (hne : l ≠ r) (hh : (is_html l && is_html r) = false)
    (hhit : ded.lookup (l ++ r) = some marker) :
    full_diff o args (Json.str l) (Json.str r) f [] ⟨ded, []⟩ =
      ⟨ded, [("", "See " ++ marker)]⟩ := by
  rw [full_diff.eq_def, make_key_nil]
  rw [if_neg (by decide : ¬ is_url_path [] = true)]
  rw [hglob]
  rw [if_neg (by decide : ¬ (false = true))]
  rw [if_neg hallow]
  rw [if_neg (fun e => hne (Json.str.inj e))]
  rw [show ignored_key args "" = false from rfl]
  rw [if_neg (by decide : ¬ (false = true))]
  split
  case h_1 =>
    rename_i heq1 heq2
    exact Json.noConfusion heq1
  case h_2 =>
    rename_i heq1 heq2
    exact Json.noConfusion heq1
  case h_3 =>
    rename_i l1 r1 heq1 heq2
    cases Json.str.inj heq1
    cases Json.str.inj heq2
    rw [leaf_strings_root o.canon l r hh]
    dsimp only
    rw [if_neg hne]
    dsimp only [diff_hash]
    rw [hhit]
    rfl
  case h_4 =>
    rename_i x1 x2 x3
    exact (x3 l r rfl rfl).elim

theorem run_step_diverge (o : Oracle) (args : Args) (b : List (String × Json))
    (acc : RunOut) (k : String) (v w : Json) (st : DiffState)
    (hlook : b.lookup k = some w) (hne2 : w ≠ v)
    (hfd : full_diff o args v w k [] ⟨acc.dedup, []⟩ = st) (hnil : st.diff ≠ []) :
    run_step o args b acc (k, v) = ⟨acc.same, acc.items ++ [(k, st.diff)], st.dedup⟩ := by
  unfold run_step
  rw [hlook]
  dsimp only
  rw [if_neg hne2, hfd, if_neg hnil]

/-- C6: when the same unequal (normalized, non-HTML) string pair occurs at the
root leaf of three documents, the run reports exactly one fully rendered
word- or line-level diff — at the first occurrence processed — and two
back-reference markers, because the first occurrence registers the pair's
content hash in the shared dedup table and later occurrences only read it. -/
theorem dedup_renders_once (o : Oracle) (args : Args) (l r : String)
    (hne : l ≠ r) (hh : (is_html l && is_html r) = false) :
    run_diff o args
      [("d1.json", Json.str l), ("d2.json", Json.str l), ("d3.json", Json.str l)]
      [("d1.json", Json.str r), ("d2.json", Json.str r), ("d3.json", Json.str r)] =
    ⟨0, [("d1.json", [("", if args.fast then o.renderLines l r else o.renderWords l r)]),
        ("d2.json", [("", "See somewhere else")]),
        ("d3.json", [("", "See somewhere else")])],
      [(l ++ r, "somewhere else")]⟩ := by
  have hlv : Json.str r ≠ Json.str l := fun e => hne (Json.str.inj e).symm
  have hself : List.lookup (l ++ r) [(l ++ r, "somewhere else")] = some "somewhere else" := by
    simp [List.lookup]
  have h1 := full_diff_root_leaf_miss o args "d1.json" l r [] (by decide) (by decide)
    hne hh rfl
  have h2 := full_diff_root_leaf_hit o args "d2.json" l r [(l ++ r, "somewhere else")]
    "somewhere else" (by decide) (by decide) hne hh hself
  have h3 := full_diff_root_leaf_hit o args "d3.json" l r [(l ++ r, "somewhere else")]
    "somewhere else" (by decide) (by decide) hne hh hself
  have e1 : run_step o args
      [("d1.json", Json.str r), ("d2.json", Json.str r), ("d3.json", Json.str r)]
      ⟨0, [], []⟩ ("d1.json", Json.str l) =
      ⟨0, [("d1.json", [("", if args.fast then o.renderLines l r else o.renderWords l r)])],
        [(l ++ r, "somewhere else")]⟩ := by
    rw [run_step_diverge o args
      [("d1.json", Json.str r), ("d2.json", Json.str r), ("d3.json", Json.str r)]
      _ "d1.json" (Json.str l) (Json.str r) _ rfl hlv h1
      (by simp)]
    simp
  have e2 : run_step o args
      [("d1.json", Json.str r), ("d2.json", Json.str r), ("d3.json", Json.str r)]
      ⟨0, [("d1.json", [("", if args.fast then o.renderLines l r else o.renderWords l r)])],
        [(l ++ r, "somewhere else")]⟩ ("d2.json", Json.str l) =
      ⟨0, [("d1.json", [("", if args.fast then o.renderLines l r else o.renderWords l r)]),
        ("d2.json", [("", "See somewhere else")])], [(l ++ r, "somewhere else")]⟩ := by
    rw [run_step_diverge o args
      [("d1.json", Json.str r), ("d2.json", Json.str r), ("d3.json", Json.str r)]
      _ "d2.json" (Json.str l) (Json.str r) _ rfl hlv h2
      (by simp)]
    simp
  have e3 : run_step o args
      [("d1.json", Json.str r), ("d2.json", Json.str r), ("d3.json", Json.str r)]
      ⟨0, [("d1.json", [("", if args.fast then o.renderLines l r else o.renderWords l r)]),
        ("d2.json", [("", "See somewhere else")])], [(l ++ r, "somewhere else")]⟩
      ("d3.json", Json.str l) =
      ⟨0, [("d1.json", [("", if args.fast then o.renderLines l r else o.renderWords l r)]),
        ("d2.json", [("", "See somewhere else")]),
        ("d3.json", [("", "See somewhere else")])], [(l ++ r, "somewhere else")]⟩ := by
    rw [run_step_diverge o args
      [("d1.json", Json.str r), ("d2.json", Json.str r), ("d3.json", Json.str r)]
      _ "d3.json" (Json.str l) (Json.str r) _ rfl hlv h3
      (by simp)]
    simp
  unfold run_diff
  rw [List.foldl_cons, e1, List.foldl_cons, e2, List.foldl_cons, e3, List.foldl_nil]

theorem dedup_renders_once_witness :
    ("x" ≠ "y" ∧ (is_html "x" && is_html "y") = false) ∧
    run_diff oracle0 args0
      [("d1.json", Json.str "x"), ("d2.json", Json.str "x"), ("d3.json", Json.str "x")]
      [("d1.json", Json.str "y"), ("d2.json", Json.str "y"), ("d3.json", Json.str "y")] =
    ⟨0, [("d1.json", [("", "W x y")]),
        ("d2.json", [("", "See somewhere else")]),
        ("d3.json", [("", "See somewhere else")])],
      [("xy", "somewhere else")]⟩ :=
  ⟨⟨by decide, by decide⟩, dedup_renders_once oracle0 args0 "x" "y" (by decide) (by decide)⟩

theorem full_diff_eval_skip (o : Oracle) (args : Args) (lhs rhs : Json)
    (file : String) (path : List PathIndex) (st : DiffState)
    (h : is_url_path path = true ∨
      (SKIP_GLOB_LIST.any fun i => strStartsWith file i) = true ∨
      (file, make_key path) ∈ ALLOWLIST ∨ lhs = rhs ∨
      ignored_key args (make_key path) = true) :
    full_diff o args lhs rhs file path st = st := by
  rcases h with h | h | h | h | h
  · rw [full_diff.eq_def, if_pos h]
  · rw [full_diff.eq_def]
    split <;> rfl
  · rw [full_diff.eq_def]
    split
    · rfl
    split <;> rfl
  · subst h
    exact full_diff_self o args lhs file path st
  · rw [full_diff.eq_def]
    split
    · rfl
    split
    · rfl
    split
    · rfl
    split <;> rfl

theorem full_diff_eval_arr_spec (o : Oracle) (args : Args) (l r : List Json)
    (file : String) (path : List PathIndex) (st : DiffState)
    (h1 : ¬ is_url_path path = true)
    (h2 : ¬ (SKIP_GLOB_LIST.any fun i => strStartsWith file i) = true)
    (h3 : (file, make_key path) ∉ ALLOWLIST)
    (h4 : ¬ Json.arr l = Json.arr r)
    (h5 : ¬ ignored_key args (make_key path) = true)
    (hspec : strEndsWith (make_key path) "specifications" = true) :
    full_diff o args (Json.arr l) (Json.arr r) file path st =
      (List.range (max l.length r.length)).foldl
        (fun st1 i => full_diff o args ((sort_specs l).getD i Json.null)
          ((sort_specs l).getD i Json.null) file (path ++ [PathIndex.Array i]) st1) st := by
  rw [full_diff.eq_def, if_neg h1, if_neg h2, if_neg h3, if_neg h4, if_neg h5]
  split
  case h_1 =>
    rename_i l1 r1 heq1 heq2
    cases Json.arr.inj heq1
    cases Json.arr.inj heq2
    rw [if_pos hspec]
  case h_2 =>
    rename_i heq1 heq2
    exact Json.noConfusion heq1
  case h_3 =>
    rename_i heq1 heq2
    exact Json.noConfusion heq1
  case h_4 =>
    rename_i x1 x2 x3
    exact (x1 l r rfl rfl).elim

theorem full_diff_eval_arr_plain (o : Oracle) (args : Args) (l r : List Json)
    (file : String) (path : List PathIndex) (st : DiffState)
    (h1 : ¬ is_url_path path = true)
    (h2 : ¬ (SKIP_GLOB_LIST.any fun i => strStartsWith file i) = true)
    (h3 : (file, make_key path) ∉ ALLOWLIST)
    (h4 : ¬ Json.arr l = Json.arr r)
    (h5 : ¬ ignored_key args (make_key path) = true)
    (hspec : ¬ strEndsWith (make_key path) "specifications" = true) :
    full_diff o args (Json.arr l) (Json.arr r) file path st =
      (List.range (max l.length r.length)).foldl
        (fun st1 i => full_diff o args (l.getD i Json.null) (r.getD i Json.null)
          file (path ++ [PathIndex.Array i]) st1) st := by
  rw [full_diff.eq_def, if_neg h1, if_neg h2, if_neg h3, if_neg h4, if_neg h5]
  split
  case h_1 =>
    rename_i l1 r1 heq1 heq2
    cases Json.arr.inj heq1
    cases Json.arr.inj heq2
    rw [if_neg hspec]
  case h_2 =>
    rename_i heq1 heq2
    exact Json.noConfusion heq1
  case h_3 =>
    rename_i heq1 heq2
    exact Json.noConfusion heq1
  case h_4 =>
    rename_i x1 x2 x3
    exact (x1 l r rfl rfl).elim

theorem full_diff_eval_obj (o : Oracle) (args : Args)
    (l r : List (String × Json))
    (file : String) (path : List PathIndex) (st : DiffState)
    (h1 : ¬ is_url_path path = true)
    (h2 : ¬ (SKIP_GLOB_LIST.any fun i => strStartsWith file i) = true)
    (h3 : (file, make_key path) ∉ ALLOWLIST)
    (h4 : ¬ Json.obj l = Json.obj r)
    (h5 : ¬ ignored_key args (make_key path) = true) :
    full_diff o args (Json.obj l) (Json.obj r) file path st =
      (o.ord (union_keys l r)).foldl
        (fun st1 k => full_diff o args (jlookupD l k) (jlookupD r k)
          file (path ++ [PathIndex.Object k]) st1) st := by
  rw [full_diff.eq_def, if_neg h1, if_neg h2, if_neg h3, if_neg h4, if_neg h5]

theorem full_diff_eval_str_ne (o : Oracle) (args : Args) (l0 r0 : String)
    (file : String) (path : List PathIndex) (st : DiffState)
    (h1 : ¬ is_url_path path = true)
    (h2 : ¬ (SKIP_GLOB_LIST.any fun i => strStartsWith file i) = true)
    (h3 : (file, make_key path) ∉ ALLOWLIST)
    (h4 : ¬ Json.str l0 = Json.str r0)
    (h5 : ¬ ignored_key args (make_key path) = true)
    (hne : ¬ (leaf_strings o.canon (make_key path) l0 r0).1 =
      (leaf_strings o.canon (make_key path) l0 r0).2) :
    ∃ txt ded2, full_diff o args (Json.str l0) (Json.str r0) file path st =
      ⟨ded2, btree_insert (make_key path) txt st.diff⟩ := by
  rw [full_diff.eq_def, if_neg h1, if_neg h2, if_neg h3, if_neg h4, if_neg h5]
  split
  case h_1 =>
    rename_i heq1 heq2
    exact Json.noConfusion heq1
  case h_2 =>
    rename_i heq1 heq2
    exact Json.noConfusion heq1
  case h_3 =>
    rename_i l1 r1 heq1 heq2
    cases Json.str.inj heq1
    cases Json.str.inj heq2
    rw [if_neg hne]
    dsimp only
    cases hl : List.lookup (diff_hash (leaf_strings o.canon (make_key path) l0 r0).1
        (leaf_strings o.canon (make_key path) l0 r0).2) st.dedup with
    | none => exact ⟨_, _, rfl⟩
    | some marker => exact ⟨_, _, rfl⟩
  case h_4 =>
    rename_i x1 x2 x3
    exact (x3 l0 r0 rfl rfl).elim

theorem mem_keys_btree_insert (k v : String) (d : List (String × String)) (x : String) :
    x ∈ (btree_insert k v d).map Prod.fst ↔ x = k ∨ x ∈ d.map Prod.fst := by
  induction d with
  | nil => simp [btree_insert]
  | cons kv1 rest ih =>
      obtain ⟨k1, v1⟩ := kv1
      simp only [btree_insert]
      split
      · simp only [List.map_cons, List.mem_cons]
      · split
        · rename_i hlt heq
          subst heq
          simp only [List.map_cons, List.mem_cons]
          tauto
        · simp only [List.map_cons, List.mem_cons, ih]
          tauto

theorem foldl_keys_pres {α : Type} (f : DiffState → α → DiffState) (l : List α)
    (y : String)
    (h : ∀ st x, y ∈ (f st x).diff.map Prod.fst → y ∈ st.diff.map Prod.fst) :
    ∀ st, y ∈ (l.foldl f st).diff.map Prod.fst → y ∈ st.diff.map Prod.fst := by
  induction l with
  | nil => intro st hy; exact hy
  | cons a l ih => intro st hy; exact h st a (ih _ hy)

theorem full_diff_allow_inv (o : Oracle) (args : Args) (lhs rhs : Json)
    (file : String) (path : List PathIndex) (st : DiffState) (k2 : String)
    (hmem : (file, k2) ∈ ALLOWLIST) :
    k2 ∈ (full_diff o args lhs rhs file path st).diff.map Prod.fst →
    k2 ∈ st.diff.map Prod.fst := by
  induction lhs, rhs, file, path, st using full_diff.induct with
  | o => exact o
  | args => exact args
  | case1 =>
      rename_i lhs1 rhs1 file1 path1 st1 h
      intro hk
      rwa [full_diff_eval_skip o args lhs1 rhs1 file1 path1 st1 (Or.inl h)] at hk
  | case2 =>
      rename_i lhs1 rhs1 file1 path1 st1 h1 h
      intro hk
      rwa [full_diff_eval_skip o args lhs1 rhs1 file1 path1 st1 (Or.inr (Or.inl h))] at hk
  | case3 =>
      rename_i lhs1 rhs1 file1 path1 st1 h1 h2 h
      intro hk
      rwa [full_diff_eval_skip o args lhs1 rhs1 file1 path1 st1
        (Or.inr (Or.inr (Or.inl h)))] at hk
  | case4 =>
      rename_i rhs1 file1 path1 st1 h1 h2 h3
      intro hk
      rwa [full_diff_eval_skip o args rhs1 rhs1 file1 path1 st1
        (Or.inr (Or.inr (Or.inr (Or.inl rfl))))] at hk
  | case5 =>
      rename_i lhs1 rhs1 file1 path1 st1 h1 h2 h3 h4 h
      intro hk
      rwa [full_diff_eval_skip o args lhs1 rhs1 file1 path1 st1
        (Or.inr (Or.inr (Or.inr (Or.inr h))))] at hk
  | case6 =>
      rename_i file1 path1 st1 h1 h2 h3 h5 l r hspec hne ih
      intro hk
      rw [full_diff_eval_arr_spec o args l r file1 path1 st1 h1 h2 h3 hne h5 hspec] at hk
      exact foldl_keys_pres _ _ k2 (fun st2 i hy => ih st2 i hmem hy) st1 hk
  | case7 =>
      rename_i file1 path1 st1 h1 h2 h3 h5 l r hspec hne ih
      intro hk
      rw [full_diff_eval_arr_plain o args l r file1 path1 st1 h1 h2 h3 hne h5 hspec] at hk
      exact foldl_keys_pres _ _ k2 (fun st2 i hy => ih st2 i hmem hy) st1 hk
  | case8 =>
      rename_i file1 path1 st1 h1 h2 h3 h5 l r hne ih
      intro hk
      rw [full_diff_eval_obj o args l r file1 path1 st1 h1 h2 h3 hne h5] at hk
      exact foldl_keys_pres _ _ k2 (fun st2 kk hy => ih st2 kk hmem hy) st1 hk
  | case9 =>
      rename_i file1 path1 st1 h1 h2 h3 h5 l0 r0 hleq hne
      intro hk
      rwa [full_diff_str_of_leaf_eq o args l0 r0 file1 path1 st1 hleq] at hk
  | case10 =>
      rename_i file1 path1 st1 h1 h2 h3 h5 l0 r0 hlne l2 r2 marker hx hne
      intro hk
      obtain ⟨txt, ded2, he⟩ :=
        full_diff_eval_str_ne o args l0 r0 file1 path1 st1 h1 h2 h3 hne h5 hlne
      rw [he] at hk
      rcases (mem_keys_btree_insert _ _ _ _).mp hk with hk2 | hk2
      · exact absurd (hk2 ▸ hmem) h3
      · exact hk2
  | case11 =>
      rename_i file1 path1 st1 h1 h2 h3 h5 l0 r0 hlne l2 r2 hx hne
      intro hk
      obtain ⟨txt, ded2, he⟩ :=
        full_diff_eval_str_ne o args l0 r0 file1 path1 st1 h1 h2 h3 hne h5 hlne
      rw [he] at hk
      rcases (mem_keys_btree_insert _ _ _ _).mp hk with hk2 | hk2
      · exact absurd (hk2 ▸ hmem) h3
      · exact hk2
  | case12 =>
      rename_i file1 path1 st1 h1 h2 h3 h5 l r hx1 hx2 hx3 hjson hne
      intro hk
      rw [full_diff.eq_def, if_neg h1, if_neg h2, if_neg h3, if_neg hne, if_neg h5] at hk
      split at hk
      all_goals first
        | exact (hx1 _ _ rfl rfl).elim
        | exact (hx2 _ _ rfl rfl).elim
        | exact (hx3 _ _ rfl rfl).elim
        | (rw [if_pos hjson] at hk
           exact hk)
  | case13 =>
      rename_i file1 path1 st1 h1 h2 h3 h5 l r hx1 hx2 hx3 hjson hne
      intro hk
      rw [full_diff.eq_def, if_neg h1, if_neg h2, if_neg h3, if_neg hne, if_neg h5] at hk
      split at hk
      all_goals first
        | exact (hx1 _ _ rfl rfl).elim
        | exact (hx2 _ _ rfl rfl).elim
        | exact (hx3 _ _ rfl rfl).elim
        | (rw [if_neg hjson] at hk
           rcases (mem_keys_btree_insert _ _ _ _).mp hk with hk2 | hk2
           · exact absurd (hk2 ▸ hmem) h3
           · exact hk2)

/-- C7: for an allow-listed (file-path, dotted-json-path) pair, `full_diff` on
that file never emits a divergence keyed by that exact dotted path — starting
from a fresh per-document divergence map, the path is absent from the result
for ALL values — and a call whose own dotted path matches the pair exactly
returns its state unchanged, skipping the entire subtree below that path. -/
theorem allowlist_exemption (o : Oracle) (args : Args) (file K : String)
    (hmem : (file, K) ∈ ALLOWLIST) :
    (∀ (lhs rhs : Json) (path : List PathIndex) (ded : List (String × String)),
      K ∉ (full_diff o args lhs rhs file path ⟨ded, []⟩).diff.map Prod.fst) ∧
    (∀ (lhs rhs : Json) (path : List PathIndex) (st : DiffState),
      make_key path = K → full_diff o args lhs rhs file path st = st) := by
  constructor
  · intro lhs rhs path ded hk
    have h2 := full_diff_allow_inv o args lhs rhs file path ⟨ded, []⟩ K hmem hk
    simp at h2
  · intro lhs rhs path st hkey
    exact full_diff_eval_skip o args lhs rhs file path st
      (Or.inr (Or.inr (Or.inl (by rw [hkey]; exact hmem))))

theorem allowlist_exemption_witness :
    ("docs/glossary/http/index.json", "doc.body.0.value.content") ∈ ALLOWLIST ∧
    ("doc.body.0.value.content" ∉
      (full_diff oracle0 args0 Json.null (Json.str "x") "docs/glossary/http/index.json"
        [PathIndex.Object "doc", PathIndex.Object "body", PathIndex.Array 0,
          PathIndex.Object "value", PathIndex.Object "content"] ⟨[], []⟩).diff.map Prod.fst ∧
      full_diff oracle0 args0 Json.null (Json.str "x") "docs/glossary/http/index.json"
        [PathIndex.Object "doc", PathIndex.Object "body", PathIndex.Array 0,
          PathIndex.Object "value", PathIndex.Object "content"] ⟨[], []⟩ = ⟨[], []⟩) :=
  ⟨by decide,
    (allowlist_exemption oracle0 args0 "docs/glossary/http/index.json"
      "doc.body.0.value.content" (by decide)).1 Json.null (Json.str "x")
      [PathIndex.Object "doc", PathIndex.Object "body", PathIndex.Array 0,
        PathIndex.Object "value", PathIndex.Object "content"] [],
    (allowlist_exemption oracle0 args0 "docs/glossary/http/index.json"
      "doc.body.0.value.content" (by decide)).2 Json.null (Json.str "x")
      [PathIndex.Object "doc", PathIndex.Object "body", PathIndex.Array 0,
        PathIndex.Object "value", PathIndex.Object "content"] ⟨[], []⟩ (by decide)⟩

/-- The set (as a list) of dotted paths at which a `full_diff` call records a
divergence, defined by the same recursion as `full_diff` but independent of
both the dedup state and the object-key enumeration order: both divergence
branches of the string leaf (rendered diff and back-reference) insert at the
same key, and the object branch's contribution is a union over the key set. -/
def diff_keys (canon : String → String) (args : Args) (lhs rhs : Json)
    (file : String) (path : List PathIndex) : List String :=
  if is_url_path path then [] else
  if SKIP_GLOB_LIST.any (fun i => strStartsWith file i) then [] else
  if (file, make_key path) ∈ ALLOWLIST then [] else
  if lhs = rhs then [] else
  if ignored_key args (make_key path) then [] else
  match lhs, rhs with
  | .arr l, .arr r =>
      if strEndsWith (make_key path) "specifications" then
        (List.range (max l.length r.length)).bind
          (fun i => diff_keys canon args ((sort_specs l).getD i .null)
            ((sort_specs l).getD i .null) file (path ++ [.Array i]))
      else
        (List.range (max l.length r.length)).bind
          (fun i => diff_keys canon args (l.getD i .null) (r.getD i .null)
            file (path ++ [.Array i]))
  | .obj l, .obj r =>
      (union_keys l r).bind
        (fun k => diff_keys canon args (jlookupD l k) (jlookupD r k) file
          (path ++ [.Object k]))
  | .str l0, .str r0 =>
      if (leaf_strings canon (make_key path) l0 r0).1 =
          (leaf_strings canon (make_key path) l0 r0).2 then []
      else [make_key path]
  | l, r =>
      if json_to_string l = json_to_string r then [] else [make_key path]
termination_by max (jsize lhs) (jsize rhs)
decreasing_by
  · have h1 := jsize_getD_le (sort_specs l) l (fun y hy => mem_sort_specs l y hy) i
    simp only [jsize]
    omega
  · have h1 := jsize_getD_le l l (fun y hy => hy) i
    have h2 := jsize_getD_le r r (fun y hy => hy) i
    simp only [jsize]
    omega
  · have h1 := jsize_jlookupD l k
    have h2 := jsize_jlookupD r k
    simp only [jsize]
    omega

theorem diff_keys_eval_skip (canon : String → String) (args : Args)
    (lhs rhs : Json) (file : String) (path : List PathIndex)
    (h : is_url_path path = true ∨
      (SKIP_GLOB_LIST.any fun i => strStartsWith file i) = true ∨
      (file, make_key path) ∈ ALLOWLIST ∨ lhs = rhs ∨
      ignored_key args (make_key path) = true) :
    diff_keys canon args lhs rhs file path = [] := by
  rcases h with h | h | h | h | h
  · rw [diff_keys.eq_def, if_pos h]
  · rw [diff_keys.eq_def]
    split <;> rfl
  · rw [diff_keys.eq_def]
    split
    · rfl
    split <;> rfl
  · rw [diff_keys.eq_def]
    split
    · rfl
    split
    · rfl
    split <;> rfl
  · rw [diff_keys.eq_def]
    split
    · rfl
    split
    · rfl
    split
    · rfl
    split <;> rfl

theorem diff_keys_eval_arr_spec (canon : String → String) (args : Args)
    (l r : List Json) (file : String) (path : List PathIndex)
    (h1 : ¬ is_url_path path = true)
    (h2 : ¬ (SKIP_GLOB_LIST.any fun i => strStartsWith file i) = true)
    (h3 : (file, make_key path) ∉ ALLOWLIST)
    (h4 : ¬ Json.arr l = Json.arr r)
    (h5 : ¬ ignored_key args (make_key path) = true)
    (hspec : strEndsWith (make_key path) "specifications" = true) :
    diff_keys canon args (Json.arr l) (Json.arr r) file path =
      (List.range (max l.length r.length)).bind
        (fun i => diff_keys canon args ((sort_specs l).getD i Json.null)
          ((sort_specs l).getD i Json.null) file (path ++ [PathIndex.Array i])) := by
  rw [diff_keys.eq_def, if_neg h1, if_neg h2, if_neg h3, if_neg h4, if_neg h5]
  split
  all_goals try (rename_i l1 r1 heq1 heq2; cases Json.arr.inj heq1; cases Json.arr.inj heq2; rw [if_pos hspec])
  all_goals try (rename_i heq1 heq2; exact Json.noConfusion heq1)
  all_goals (rename_i x1 x2 x3; exact (x1 l r rfl rfl).elim)

theorem diff_keys_eval_arr_plain (canon : String → String) (args : Args)
    (l r : List Json) (file : String) (path : List PathIndex)
    (h1 : ¬ is_url_path path = true)
    (h2 : ¬ (SKIP_GLOB_LIST.any fun i => strStartsWith file i) = true)
    (h3 : (file, make_key path) ∉ ALLOWLIST)
    (h4 : ¬ Json.arr l = Json.arr r)
    (h5 : ¬ ignored_key args (make_key path) = true)
    (hspec : ¬ strEndsWith (make_key path) "specifications" = true) :
    diff_keys canon args (Json.arr l) (Json.arr r) file path =
      (List.range (max l.length r.length)).bind
        (fun i => diff_keys canon args (l.getD i Json.null) (r.getD i Json.null)
          file (path ++ [PathIndex.Array i])) := by
  rw [diff_keys.eq_def, if_neg h1, if_neg h2, if_neg h3, if_neg h4, if_neg h5]
  split
  all_goals try (rename_i l1 r1 heq1 heq2; cases Json.arr.inj heq1; cases Json.arr.inj heq2; rw [if_neg hspec])
  all_goals try (rename_i heq1 heq2; exact Json.noConfusion heq1)
  all_goals (rename_i x1 x2 x3; exact (x1 l r rfl rfl).elim)

theorem diff_keys_eval_obj (canon : String → String) (args : Args)
    (l r : List (String × Json)) (file : String) (path : List PathIndex)
    (h1 : ¬ is_url_path path = true)
    (h2 : ¬ (SKIP_GLOB_LIST.any fun i => strStartsWith file i) = true)
    (h3 : (file, make_key path) ∉ ALLOWLIST)
    (h4 : ¬ Json.obj l = Json.obj r)
    (h5 : ¬ ignored_key args (make_key path) = true) :
    diff_keys canon args (Json.obj l) (Json.obj r) file path =
      (union_keys l r).bind
        (fun k => diff_keys canon args (jlookupD l k) (jlookupD r k) file
          (path ++ [PathIndex.Object k])) := by
  rw [diff_keys.eq_def, if_neg h1, if_neg h2, if_neg h3, if_neg h4, if_neg h5]

theorem diff_keys_eval_str_ne (canon : String → String) (args : Args)
    (l0 r0 : String) (file : String) (path : List PathIndex)
    (h1 : ¬ is_url_path path = true)
    (h2 : ¬ (SKIP_GLOB_LIST.any fun i => strStartsWith file i) = true)
    (h3 : (file, make_key path) ∉ ALLOWLIST)
    (h4 : ¬ Json.str l0 = Json.str r0)
    (h5 : ¬ ignored_key args (make_key path) = true)
    (hne : ¬ (leaf_strings canon (make_key path) l0 r0).1 =
      (leaf_strings canon (make_key path) l0 r0).2) :
    diff_keys canon args (Json.str l0) (Json.str r0) file path = [make_key path] := by
  rw [diff_keys.eq_def, if_neg h1, if_neg h2, if_neg h3, if_neg h4, if_neg h5]
  split
  all_goals try (rename_i l1 r1 heq1 heq2; cases Json.str.inj heq1; cases Json.str.inj heq2; rw [if_neg hne])
  all_goals try (rename_i heq1 heq2; exact Json.noConfusion heq1)
  all_goals (rename_i x1 x2 x3; exact (x3 l0 r0 rfl rfl).elim)

theorem diff_keys_eval_str_eq (canon : String → String) (args : Args)
    (l0 r0 : String) (file : String) (path : List PathIndex)
    (heq : (leaf_strings canon (make_key path) l0 r0).1 =
      (leaf_strings canon (make_key path) l0 r0).2) :
    diff_keys canon args (Json.str l0) (Json.str r0) file path = [] := by
  rw [diff_keys.eq_def]
  split
  · rfl
  split
  · rfl
  split
  · rfl
  split
  · rfl
  split
  · rfl
  split
  all_goals try (rename_i l1 r1 heqa heqb; cases Json.str.inj heqa; cases Json.str.inj heqb; rw [if_pos heq])
  all_goals try (rename_i heqa heqb; exact Json.noConfusion heqa)
  all_goals (rename_i x1 x2 x3; exact (x3 l0 r0 rfl rfl).elim)

theorem full_diff_eval_other (o : Oracle) (args : Args) (lhs rhs : Json)
    (file : String) (path : List PathIndex) (st : DiffState)
    (h1 : ¬ is_url_path path = true)
    (h2 : ¬ (SKIP_GLOB_LIST.any fun i => strStartsWith file i) = true)
    (h3 : (file, make_key path) ∉ ALLOWLIST)
    (h4 : ¬ lhs = rhs)
    (h5 : ¬ ignored_key args (make_key path) = true)
    (hx1 : ∀ (la ra : List Json), lhs = Json.arr la → rhs = Json.arr ra → False)
    (hx2 : ∀ (la ra : List (String × Json)), lhs = Json.obj la → rhs = Json.obj ra → False)
    (hx3 : ∀ (la ra : String), lhs = Json.str la → rhs = Json.str ra → False) :
    full_diff o args lhs rhs file path st =
      if json_to_string lhs = json_to_string rhs then st
      else ⟨st.dedup, btree_insert (make_key path)
        (o.renderWords (json_to_string lhs) (json_to_string rhs)) st.diff⟩ := by
  rw [full_diff.eq_def, if_neg h1, if_neg h2, if_neg h3, if_neg h4, if_neg h5]
  split
  all_goals first
    | rfl
    | exact (hx1 _ _ rfl rfl).elim
    | exact (hx2 _ _ rfl rfl).elim
    | exact (hx3 _ _ rfl rfl).elim

theorem diff_keys_eval_other (canon : String → String) (args : Args)
    (lhs rhs : Json) (file : String) (path : List PathIndex)
    (h1 : ¬ is_url_path path = true)
    (h2 : ¬ (SKIP_GLOB_LIST.any fun i => strStartsWith file i) = true)
    (h3 : (file, make_key path) ∉ ALLOWLIST)
    (h4 : ¬ lhs = rhs)
    (h5 : ¬ ignored_key args (make_key path) = true)
    (hx1 : ∀ (la ra : List Json), lhs = Json.arr la → rhs = Json.arr ra → False)
    (hx2 : ∀ (la ra : List (String × Json)), lhs = Json.obj la → rhs = Json.obj ra → False)
    (hx3 : ∀ (la ra : String), lhs = Json.str la → rhs = Json.str ra → False) :
    diff_keys canon args lhs rhs file path =
      if json_to_string lhs = json_to_string rhs then [] else [make_key path] := by
  rw [diff_keys.eq_def, if_neg h1, if_neg h2, if_neg h3, if_neg h4, if_neg h5]
  split
  all_goals first
    | rfl
    | exact (hx1 _ _ rfl rfl).elim
    | exact (hx2 _ _ rfl rfl).elim
    | exact (hx3 _ _ rfl rfl).elim

theorem foldl_keys_char {α : Type} (f : DiffState → α → DiffState)
    (g : α → List String) (y : String)
    (h : ∀ st x, y ∈ (f st x).diff.map Prod.fst ↔ y ∈ st.diff.map Prod.fst ∨ y ∈ g x) :
    ∀ (l : List α) (st : DiffState),
      y ∈ (l.foldl f st).diff.map Prod.fst ↔
        y ∈ st.diff.map Prod.fst ∨ y ∈ l.bind g := by
  intro l
  induction l with
  | nil => intro st; simp
  | cons a l ih =>
      intro st
      rw [List.foldl_cons, ih, h]
      simp only [List.cons_bind, List.mem_append]
      tauto

theorem mem_keys_full_diff (o : Oracle) (hord : ∀ l, (o.ord l).Perm l)
    (args : Args) (lhs rhs : Json) (file : String) (path : List PathIndex)
    (st : DiffState) (y : String) :
    y ∈ (full_diff o args lhs rhs file path st).diff.map Prod.fst ↔
      y ∈ st.diff.map Prod.fst ∨ y ∈ diff_keys o.canon args lhs rhs file path := by
  induction lhs, rhs, file, path, st using full_diff.induct with
  | o => exact o
  | args => exact args
  | case1 =>
      rename_i lhs1 rhs1 file1 path1 st1 h
      rw [full_diff_eval_skip o args lhs1 rhs1 file1 path1 st1 (Or.inl h),
        diff_keys_eval_skip o.canon args lhs1 rhs1 file1 path1 (Or.inl h)]
      simp
  | case2 =>
      rename_i lhs1 rhs1 file1 path1 st1 h1 h
      rw [full_diff_eval_skip o args lhs1 rhs1 file1 path1 st1 (Or.inr (Or.inl h)),
        diff_keys_eval_skip o.canon args lhs1 rhs1 file1 path1 (Or.inr (Or.inl h))]
      simp
  | case3 =>
      rename_i lhs1 rhs1 file1 path1 st1 h1 h2 h
      rw [full_diff_eval_skip o args lhs1 rhs1 file1 path1 st1
          (Or.inr (Or.inr (Or.inl h))),
        diff_keys_eval_skip o.canon args lhs1 rhs1 file1 path1
          (Or.inr (Or.inr (Or.inl h)))]
      simp
  | case4 =>
      rename_i rhs1 file1 path1 st1 h1 h2 h3
      rw [full_diff_eval_skip o args rhs1 rhs1 file1 path1 st1
          (Or.inr (Or.inr (Or.inr (Or.inl rfl)))),
        diff_keys_eval_skip o.canon args rhs1 rhs1 file1 path1
          (Or.inr (Or.inr (Or.inr (Or.inl rfl))))]
      simp
  | case5 =>
      rename_i lhs1 rhs1 file1 path1 st1 h1 h2 h3 h4 h
      rw [full_diff_eval_skip o args lhs1 rhs1 file1 path1 st1
          (Or.inr (Or.inr (Or.inr (Or.inr h)))),
        diff_keys_eval_skip o.canon args lhs1 rhs1 file1 path1
          (Or.inr (Or.inr (Or.inr (Or.inr h))))]
      simp
  | case6 =>
      rename_i file1 path1 st1 h1 h2 h3 h5 l r hspec hne ih
      rw [full_diff_eval_arr_spec o args l r file1 path1 st1 h1 h2 h3 hne h5 hspec,
        diff_keys_eval_arr_spec o.canon args l r file1 path1 h1 h2 h3 hne h5 hspec]
      exact foldl_keys_char _ _ y (fun st2 i => ih st2 i) _ st1
  | case7 =>
      rename_i file1 path1 st1 h1 h2 h3 h5 l r hspec hne ih
      rw [full_diff_eval_arr_plain o args l r file1 path1 st1 h1 h2 h3 hne h5 hspec,
        diff_keys_eval_arr_plain o.canon args l r file1 path1 h1 h2 h3 hne h5 hspec]
      exact foldl_keys_char _ _ y (fun st2 i => ih st2 i) _ st1
  | case8 =>
      rename_i file1 path1 st1 h1 h2 h3 h5 l r hne ih
      rw [full_diff_eval_obj o args l r file1 path1 st1 h1 h2 h3 hne h5,
        diff_keys_eval_obj o.canon args l r file1 path1 h1 h2 h3 hne h5]
      rw [foldl_keys_char _
        (fun k => diff_keys o.canon args (jlookupD l k) (jlookupD r k) file1
          (path1 ++ [PathIndex.Object k])) y (fun st2 k => ih st2 k) _ st1]
      simp only [List.mem_bind, (hord (union_keys l r)).mem_iff]
  | case9 =>
      rename_i file1 path1 st1 h1 h2 h3 h5 l0 r0 hleq hne
      rw [full_diff_str_of_leaf_eq o args l0 r0 file1 path1 st1 hleq,
        diff_keys_eval_str_eq o.canon args l0 r0 file1 path1 hleq]
      simp
  | case10 =>
      rename_i file1 path1 st1 h1 h2 h3 h5 l0 r0 hlne l2 r2 marker hx hne
      obtain ⟨txt, ded2, he⟩ :=
        full_diff_eval_str_ne o args l0 r0 file1 path1 st1 h1 h2 h3 hne h5 hlne
      rw [he, diff_keys_eval_str_ne o.canon args l0 r0 file1 path1 h1 h2 h3 hne h5 hlne]
      show y ∈ (btree_insert (make_key path1) txt st1.diff).map Prod.fst ↔ _
      rw [mem_keys_btree_insert]
      simp only [List.mem_singleton]
      tauto
  | case11 =>
      rename_i file1 path1 st1 h1 h2 h3 h5 l0 r0 hlne l2 r2 hx hne
      obtain ⟨txt, ded2, he⟩ :=
        full_diff_eval_str_ne o args l0 r0 file1 path1 st1 h1 h2 h3 hne h5 hlne
      rw [he, diff_keys_eval_str_ne o.canon args l0 r0 file1 path1 h1 h2 h3 hne h5 hlne]
      show y ∈ (btree_insert (make_key path1) txt st1.diff).map Prod.fst ↔ _
      rw [mem_keys_btree_insert]
      simp only [List.mem_singleton]
      tauto
  | case12 =>
      rename_i file1 path1 st1 h1 h2 h3 h5 l r hx1 hx2 hx3 hjson hne
      rw [full_diff_eval_other o args l r file1 path1 st1 h1 h2 h3 hne h5 hx1 hx2 hx3,
        diff_keys_eval_other o.canon args l r file1 path1 h1 h2 h3 hne h5 hx1 hx2 hx3,
        if_pos hjson, if_pos hjson]
      simp
  | case13 =>
      rename_i file1 path1 st1 h1 h2 h3 h5 l r hx1 hx2 hx3 hjson hne
      rw [full_diff_eval_other o args l r file1 path1 st1 h1 h2 h3 hne h5 hx1 hx2 hx3,
        diff_keys_eval_other o.canon args l r file1 path1 h1 h2 h3 hne h5 hx1 hx2 hx3,
        if_neg hjson, if_neg hjson]
      show y ∈ (btree_insert (make_key path1) _ st1.diff).map Prod.fst ↔ _
      rw [mem_keys_btree_insert]
      simp only [List.mem_singleton]
      tauto

/-- C9 amended: two runs of the same comparison that enumerate object keys in
different orders produce divergence maps with the same KEY SET — the set of
dotted paths is independent of the visitation order (and of the diff
renderers) — but not necessarily equal path→rendered-text maps: which
occurrence of a repeated delta is fully rendered and which becomes a
back-reference depends on the order (see the counterexample). -/
theorem divergence_key_set_order_independent
    (ord1 ord2 : List String → List String)
    (h1 : ∀ l, (ord1 l).Perm l) (h2 : ∀ l, (ord2 l).Perm l)
    (canon : String → String) (rw1 rl1 rw2 rl2 : String → String → String)
    (args : Args) (lhs rhs : Json) (file : String) (path : List PathIndex)
    (st : DiffState) (y : String) :
    (y ∈ (full_diff ⟨ord1, canon, rw1, rl1⟩ args lhs rhs file path st).diff.map Prod.fst ↔
     y ∈ (full_diff ⟨ord2, canon, rw2, rl2⟩ args lhs rhs file path st).diff.map Prod.fst) := by
  rw [mem_keys_full_diff ⟨ord1, canon, rw1, rl1⟩ h1 args lhs rhs file path st y,
    mem_keys_full_diff ⟨ord2, canon, rw2, rl2⟩ h2 args lhs rhs file path st y]

theorem divergence_key_set_order_independent_witness :
    ("a" ∈ (full_diff ⟨id, id, fun a b => "W " ++ a ++ " " ++ b,
        fun a b => "L " ++ a ++ " " ++ b⟩ args0
        (Json.obj [("a", Json.str "x"), ("b", Json.str "x")])
        (Json.obj [("a", Json.str "y"), ("b", Json.str "y")])
        "f" [] ⟨[], []⟩).diff.map Prod.fst ↔
     "a" ∈ (full_diff ⟨List.reverse, id, fun a b => "W " ++ a ++ " " ++ b,
        fun a b => "L " ++ a ++ " " ++ b⟩ args0
        (Json.obj [("a", Json.str "x"), ("b", Json.str "x")])
        (Json.obj [("a", Json.str "y"), ("b", Json.str "y")])
        "f" [] ⟨[], []⟩).diff.map Prod.fst) :=
  divergence_key_set_order_independent id List.reverse
    (fun l => List.Perm.refl l) (fun l => List.reverse_perm l) id
    (fun a b => "W " ++ a ++ " " ++ b) (fun a b => "L " ++ a ++ " " ++ b)
    (fun a b => "W " ++ a ++ " " ++ b) (fun a b => "L " ++ a ++ " " ++ b)
    args0 (Json.obj [("a", Json.str "x"), ("b", Json.str "x")])
    (Json.obj [("a", Json.str "y"), ("b", Json.str "y")]) "f" [] ⟨[], []⟩ "a"

/-- C9 counterexample: enumerating the keys of the same object comparison in
two different orders produces two DIFFERENT path→rendered-text maps: both runs
report the same two paths, but the dedup cache renders the first-visited leaf
in full and turns the other into a back-reference, so the rendered texts swap
with the visitation order. -/
theorem divergence_map_depends_on_key_order :
    (full_diff ⟨id, id, fun a b => "W " ++ a ++ " " ++ b,
        fun a b => "L " ++ a ++ " " ++ b⟩ args0
        (Json.obj [("a", Json.str "x"), ("b", Json.str "x")])
        (Json.obj [("a", Json.str "y"), ("b", Json.str "y")])
        "f" [] ⟨[], []⟩).diff = [("a", "W x y"), ("b", "See somewhere else")] ∧
    (full_diff ⟨List.reverse, id, fun a b => "W " ++ a ++ " " ++ b,
        fun a b => "L " ++ a ++ " " ++ b⟩ args0
        (Json.obj [("a", Json.str "x"), ("b", Json.str "x")])
        (Json.obj [("a", Json.str "y"), ("b", Json.str "y")])
        "f" [] ⟨[], []⟩).diff = [("a", "See somewhere else"), ("b", "W x y")] ∧
    [("a", "W x y"), ("b", "See somewhere else")] ≠
      [("a", "See somewhere else"), ("b", "W x y")] := by decide
